import Mathlib

/-!
Verification development for the `ai_integrator` repository
(Provider Orchestration & Provenance Subsystem).

The Python sources under `src/ai_integrator` are shallowly embedded as
executable Lean definitions:

* `core/provenance.py`  — JSON-like values, canonical serialization
  (`json.dumps(data, sort_keys=True, separators=(',', ':'))`), SHA-256
  content hashing truncated to a 16-hex-character prefix.
* `core/base.py`, `core/image_types.py` — request/response value types and
  their construction-time validation (`__post_init__`).
* `providers/base_image_provider.py` — image-provider capability sets and
  `validate_request`.
* `core/integrator.py` — the dual provider registries, single dispatch
  (`generate`, `generate_image`) and concurrent fan-out
  (`generate_parallel`, `generate_images_parallel`).  `async` functions
  become pure functions returning `Except`; `asyncio.gather(...,
  return_exceptions=True)` becomes running every prebuilt task and keeping
  each outcome (success or error) as a value.
* `core/validation.py`, `config/settings.py` — configuration validation.

Python exceptions are modelled with `Except PyErr`; Python dictionaries
(with their insertion order, which `dict` preserves and
`next(iter(d.keys()))` observes) are modelled as association lists.
-/

namespace AIIntegratorModel

/-! ## JSON-like values (arguments of `canonical_json` / `hash_dict`)

`canonical_json` receives "JSON-like" Python structures.  We embed the
JSON universe; object fields keep their insertion order, exactly as a
Python `dict` does.  (`json.dumps(..., default=str)` additionally
stringifies non-JSON leaves; such leaves are outside this universe.)
Numbers are embedded as integers: floating point is not modelled. -/

inductive Json where
  | null : Json
  | bool (b : Bool) : Json
  | num (n : Int) : Json
  | str (s : String) : Json
  | arr (items : List Json) : Json
  | obj (entries : List (String × Json)) : Json

/-- Python-dict lookup on an association list (first binding wins). -/
def dictGet {α : Type} : List (String × α) → String → Option α
  | [], _ => none
  | (k, v) :: t, key => if k = key then some v else dictGet t key

/-- `d.get(key, default)`. -/
def dictGetD {α : Type} (d : List (String × α)) (key : String) (dflt : α) : α :=
  match dictGet d key with
  | some v => v
  | none => dflt

/-- `key in d`. -/
def dictHas {α : Type} (d : List (String × α)) (key : String) : Bool :=
  match dictGet d key with
  | some _ => true
  | none => false

/-- `d[key] = v`: overwrite in place if the key exists (keeping its
position, as a Python dict does), otherwise append at the end. -/
def dictSet {α : Type} : List (String × α) → String → α → List (String × α)
  | [], key, v => [(key, v)]
  | (k, w) :: t, key, v =>
      if k = key then (key, v) :: t else (k, w) :: dictSet t key v

/-- `del d[key]` (the key occurs at most once in dict-built lists). -/
def dictRemove {α : Type} : List (String × α) → String → List (String × α)
  | [], _ => []
  | (k, w) :: t, key => if k = key then t else (k, w) :: dictRemove t key

/-! ## Sorting object keys (`json.dumps(..., sort_keys=True)`)

Keys are compared as Python compares `str`, i.e. lexicographically by
code point — the same order as Lean's `String` linear order.  Dict keys
are unique, so stability of the sort is irrelevant. -/

/-- Insert one binding into a key-sorted list of bindings. -/
def insSorted (a : String × Json) : List (String × Json) → List (String × Json)
  | [] => [a]
  | b :: t => if a.1 ≤ b.1 then a :: b :: t else b :: insSorted a t

/-- Sort bindings by key (insertion sort). -/
def sortByKey : List (String × Json) → List (String × Json)
  | [] => []
  | a :: t => insSorted a (sortByKey t)

/- Recursively sort every object's bindings by key.  `json.dumps` with
`sort_keys=True` emits every object in key order; sorting first and then
emitting plainly produces the same text. -/
mutual

def sortJson : Json → Json
  | .null => .null
  | .bool b => .bool b
  | .num n => .num n
  | .str s => .str s
  | .arr items => .arr (sortJsonList items)
  | .obj entries => .obj (sortByKey (sortJsonKVs entries))

def sortJsonList : List Json → List Json
  | [] => []
  | j :: t => sortJson j :: sortJsonList t

def sortJsonKVs : List (String × Json) → List (String × Json)
  | [] => []
  | (k, v) :: t => (k, sortJson v) :: sortJsonKVs t

end

/-! ## Emission (`json.dumps(..., separators=(',', ':'))`, `ensure_ascii`) -/

/-- Lower-case hex digit. -/
def hexDigit (n : Nat) : Char :=
  if n < 10 then Char.ofNat (48 + n) else Char.ofNat (87 + n)

/-- `\uXXXX` escape (lower-case hex, as CPython's json emits). -/
def uEsc (n : Nat) : List Char :=
  ['\\', 'u', hexDigit (n / 4096 % 16), hexDigit (n / 256 % 16),
   hexDigit (n / 16 % 16), hexDigit (n % 16)]

/-- Escape one character of a JSON string the way CPython's
`json.dumps` (default `ensure_ascii=True`) does. -/
def escChar (c : Char) : List Char :=
  let n := c.toNat
  if c = '"' then ['\\', '"']
  else if c = '\\' then ['\\', '\\']
  else if c = '\n' then ['\\', 'n']
  else if c = '\r' then ['\\', 'r']
  else if c = '\t' then ['\\', 't']
  else if n = 8 then ['\\', 'b']
  else if n = 12 then ['\\', 'f']
  else if n < 32 then uEsc n
  else if n < 127 then [c]
  else if n < 65536 then uEsc n
  else
    let m := n - 65536
    uEsc (55296 + m / 1024) ++ uEsc (56320 + m % 1024)

/-- JSON string literal. -/
def escString (s : String) : List Char :=
  '"' :: (s.data.flatMap escChar) ++ ['"']

/- Emit an (already key-sorted) JSON value with separators `','` and
`':'` and no incidental whitespace. -/
mutual

def emitJson : Json → List Char
  | .null => "null".data
  | .bool true => "true".data
  | .bool false => "false".data
  | .num n => (toString n).data
  | .str s => escString s
  | .arr [] => ['[', ']']
  | .arr (j :: t) => '[' :: (emitJson j ++ emitArrRest t) ++ [']']
  | .obj [] => ['\x7b', '\x7d']
  | .obj (kv :: t) => '\x7b' :: (emitKV kv ++ emitObjRest t) ++ ['\x7d']

def emitArrRest : List Json → List Char
  | [] => []
  | j :: t => ',' :: emitJson j ++ emitArrRest t

def emitKV : String × Json → List Char
  | (k, v) => escString k ++ ':' :: emitJson v

def emitObjRest : List (String × Json) → List Char
  | [] => []
  | kv :: t => ',' :: emitKV kv ++ emitObjRest t

end

/-- Model of `json.dumps(data, sort_keys=True, default=str,
separators=(',', ':'))` on the JSON universe. -/
def jsonDumpsCanonical (j : Json) : String :=
  String.mk (emitJson (sortJson j))

/-! ## SHA-256 (`hashlib.sha256`), on lists of bytes

Faithful implementation of FIPS 180-4.  The round constants are derived
from their definition (fractional bits of the cube/square roots of the
first primes) rather than transcribed. -/

def w32 (n : Nat) : Nat := n % 4294967296

def rotr (b x : Nat) : Nat := w32 ((x >>> b) ||| (x <<< (32 - b)))

def bsig0 (x : Nat) : Nat := (rotr 2 x) ^^^ (rotr 13 x) ^^^ (rotr 22 x)
def bsig1 (x : Nat) : Nat := (rotr 6 x) ^^^ (rotr 11 x) ^^^ (rotr 25 x)
def ssig0 (x : Nat) : Nat := (rotr 7 x) ^^^ (rotr 18 x) ^^^ (x >>> 3)
def ssig1 (x : Nat) : Nat := (rotr 17 x) ^^^ (rotr 19 x) ^^^ (x >>> 10)
def chF (x y z : Nat) : Nat := (x &&& y) ^^^ ((x ^^^ 4294967295) &&& z)
def majF (x y z : Nat) : Nat := (x &&& y) ^^^ (x &&& z) ^^^ (y &&& z)

/-- Integer cube root by bisection (enough fuel for inputs `< 2^128`). -/
def cbrtGo (n : Nat) : Nat → Nat → Nat → Nat
  | 0, lo, _ => lo
  | fuel + 1, lo, hi =>
      let mid := (lo + hi) / 2
      if mid = lo then lo
      else if mid * mid * mid ≤ n then cbrtGo n fuel mid hi
      else cbrtGo n fuel lo mid

def cbrtFloor (n : Nat) : Nat := cbrtGo n 130 0 (n + 1)

/-- First 32 fractional bits of the cube root of `p`. -/
def cbrtWord (p : Nat) : Nat := cbrtFloor (p <<< 96) % 4294967296

/-- First 32 fractional bits of the square root of `p`. -/
def sqrtWord (p : Nat) : Nat := Nat.sqrt (p <<< 64) % 4294967296

def firstPrimes64 : List Nat :=
  [2, 3, 5, 7, 11, 13, 17, 19, 23, 29, 31, 37, 41, 43, 47, 53,
   59, 61, 67, 71, 73, 79, 83, 89, 97, 101, 103, 107, 109, 113, 127, 131,
   137, 139, 149, 151, 157, 163, 167, 173, 179, 181, 191, 193, 197, 199, 211, 223,
   227, 229, 233, 239, 241, 251, 257, 263, 269, 271, 277, 281, 283, 293, 307, 311]

def sha256K : List Nat := firstPrimes64.map cbrtWord

structure H8 where
  a : Nat
  b : Nat
  c : Nat
  d : Nat
  e : Nat
  f : Nat
  g : Nat
  h : Nat

def initH8 : H8 :=
  ⟨sqrtWord 2, sqrtWord 3, sqrtWord 5, sqrtWord 7,
   sqrtWord 11, sqrtWord 13, sqrtWord 17, sqrtWord 19⟩

/-- SHA-256 padding: `0x80`, zeros to 56 mod 64, 8-byte big-endian bit length. -/
def padMsg (msg : List Nat) : List Nat :=
  let l := msg.length
  let zeros := (119 - l % 64) % 64
  let bitLen := 8 * l
  msg ++ 128 :: List.replicate zeros 0 ++
    [bitLen >>> 56 % 256, bitLen >>> 48 % 256, bitLen >>> 40 % 256,
     bitLen >>> 32 % 256, bitLen >>> 24 % 256, bitLen >>> 16 % 256,
     bitLen >>> 8 % 256, bitLen % 256]

def chunks64 : List Nat → List (List Nat)
  | [] => []
  | a :: t => (a :: t).take 64 :: chunks64 ((a :: t).drop 64)
termination_by l => l.length
decreasing_by simp [List.length_drop]; omega

/-- 4 big-endian bytes per 32-bit word. -/
def bytesToWords : List Nat → List Nat
  | b0 :: b1 :: b2 :: b3 :: t =>
      (b0 * 16777216 + b1 * 65536 + b2 * 256 + b3) :: bytesToWords t
  | _ => []

/-- Extend the 16-word schedule by `rounds` more words. -/
def buildW (w : List Nat) : Nat → List Nat
  | 0 => w
  | r + 1 =>
      let i := w.length
      let wi := w32 (ssig1 (w.getD (i - 2) 0) + w.getD (i - 7) 0 +
                     ssig0 (w.getD (i - 15) 0) + w.getD (i - 16) 0)
      buildW (w ++ [wi]) r

def roundStep (s : H8) (wk : Nat × Nat) : H8 :=
  let t1 := w32 (s.h + bsig1 s.e + chF s.e s.f s.g + wk.1 + wk.2)
  let t2 := w32 (bsig0 s.a + majF s.a s.b s.c)
  ⟨w32 (t1 + t2), s.a, s.b, s.c, w32 (s.d + t1), s.e, s.f, s.g⟩

def processChunk (s : H8) (chunk : List Nat) : H8 :=
  let ws := buildW (bytesToWords chunk) 48
  let t := (ws.zip sha256K).foldl roundStep s
  ⟨w32 (s.a + t.a), w32 (s.b + t.b), w32 (s.c + t.c), w32 (s.d + t.d),
   w32 (s.e + t.e), w32 (s.f + t.f), w32 (s.g + t.g), w32 (s.h + t.h)⟩

def wordBytes (x : Nat) : List Nat :=
  [x >>> 24 % 256, x >>> 16 % 256, x >>> 8 % 256, x % 256]

/-- SHA-256 digest (32 bytes) of a byte string. -/
def sha256Bytes (msg : List Nat) : List Nat :=
  let s := (chunks64 (padMsg msg)).foldl processChunk initH8
  wordBytes s.a ++ wordBytes s.b ++ wordBytes s.c ++ wordBytes s.d ++
  wordBytes s.e ++ wordBytes s.f ++ wordBytes s.g ++ wordBytes s.h

/-- `.hexdigest()`: two lower-case hex characters per byte. -/
def hexChars (bytes : List Nat) : List Char :=
  bytes.flatMap (fun b => [hexDigit (b / 16 % 16), hexDigit (b % 16)])

/-- UTF-8 encoding of one code point. -/
def utf8Encode (c : Nat) : List Nat :=
  if c < 128 then [c]
  else if c < 2048 then [192 ||| (c >>> 6), 128 ||| (c &&& 63)]
  else if c < 65536 then
    [224 ||| (c >>> 12), 128 ||| ((c >>> 6) &&& 63), 128 ||| (c &&& 63)]
  else
    [240 ||| (c >>> 18), 128 ||| ((c >>> 12) &&& 63),
     128 ||| ((c >>> 6) &&& 63), 128 ||| (c &&& 63)]

/-- `content.encode("utf-8")`. -/
def utf8Bytes (s : String) : List Nat :=
  s.data.flatMap (fun c => utf8Encode c.toNat)

/-! ## `core/provenance.py` hashing functions -/

/-- `hash_content`: SHA-256 hexdigest of the UTF-8 bytes, truncated to
its first 16 hex characters. -/
def hash_content (content : String) : String :=
  String.mk ((hexChars (sha256Bytes (utf8Bytes content))).take 16)

/-- `hash_dict`: serializes the dictionary itself with
`json.dumps(data, sort_keys=True, default=str, separators=(',', ':'))`
and hashes the result. -/
def hash_dict (data : List (String × Json)) : String :=
  hash_content (jsonDumpsCanonical (Json.obj data))

/-- `canonical_json`: the same canonical `json.dumps` call. -/
def canonical_json (data : List (String × Json)) : String :=
  jsonDumpsCanonical (Json.obj data)

/-- `hash_input_packet`: `hash_content (canonical_json packet)`. -/
def hash_input_packet (packet : List (String × Json)) : String :=
  hash_content (canonical_json packet)

/-! ## Facts about key sorting -/

/-- Key order on object bindings. -/
def keyLE (a b : String × Json) : Prop := a.1 ≤ b.1

lemma insSorted_perm (a : String × Json) (l : List (String × Json)) :
    List.Perm (insSorted a l) (a :: l) := by
  induction l with
  | nil => simp [insSorted]
  | cons b t ih =>
      by_cases h : a.1 ≤ b.1
      · simp [insSorted, h]
      · simp only [insSorted, if_neg h]
        exact ((ih.cons b).trans (List.Perm.swap a b t))

lemma sortByKey_perm (l : List (String × Json)) : List.Perm (sortByKey l) l := by
  induction l with
  | nil => simp [sortByKey]
  | cons a t ih =>
      exact (insSorted_perm a (sortByKey t)).trans (ih.cons a)

lemma insSorted_sorted (a : String × Json) (l : List (String × Json))
    (h : l.Pairwise keyLE) : (insSorted a l).Pairwise keyLE := by
  induction l with
  | nil => simp [insSorted, List.Pairwise.nil]
  | cons b t ih =>
      rcases h with - | ⟨hb, ht⟩
      by_cases hab : a.1 ≤ b.1
      · simp only [insSorted, if_pos hab]
        refine List.Pairwise.cons ?_ (List.Pairwise.cons hb ht)
        intro x hx
        rcases List.mem_cons.mp hx with rfl | hx
        · exact hab
        · exact le_trans hab (hb x hx)
      · simp only [insSorted, if_neg hab]
        refine List.Pairwise.cons ?_ (ih ht)
        intro x hx
        have hx' := (insSorted_perm a t).mem_iff.mp hx
        rcases List.mem_cons.mp hx' with rfl | hx2
        · exact le_of_not_le hab
        · exact hb x hx2

lemma sortByKey_sorted (l : List (String × Json)) :
    (sortByKey l).Pairwise keyLE := by
  induction l with
  | nil => simp [sortByKey, List.Pairwise.nil]
  | cons a t ih => exact insSorted_sorted a (sortByKey t) ih

/-- Sorting by key is invariant under permutation of the bindings, as
long as the keys are distinct (they always are for a Python dict). -/
lemma sortByKey_eq_of_perm (l₁ l₂ : List (String × Json))
    (hp : List.Perm l₁ l₂) (hnd : (l₁.map Prod.fst).Nodup) :
    sortByKey l₁ = sortByKey l₂ := by
  have hperm : List.Perm (sortByKey l₁) (sortByKey l₂) :=
    (sortByKey_perm l₁).trans (hp.trans (sortByKey_perm l₂).symm)
  have hnd₁ : ((sortByKey l₁).map Prod.fst).Nodup :=
    (((sortByKey_perm l₁).map Prod.fst).nodup_iff).mpr hnd
  have hnd₂ : ((sortByKey l₂).map Prod.fst).Nodup :=
    ((hperm.map Prod.fst).nodup_iff).mp hnd₁
  have hne₁ : (sortByKey l₁).Pairwise (fun a b => a.1 ≠ b.1) :=
    (List.pairwise_map.mp hnd₁)
  have hne₂ : (sortByKey l₂).Pairwise (fun a b => a.1 ≠ b.1) :=
    (List.pairwise_map.mp hnd₂)
  have hlt₁ : (sortByKey l₁).Pairwise (fun a b => a.1 < b.1) :=
    ((sortByKey_sorted l₁).and hne₁).imp (fun h => lt_of_le_of_ne h.1 h.2)
  have hlt₂ : (sortByKey l₂).Pairwise (fun a b => a.1 < b.1) :=
    ((sortByKey_sorted l₂).and hne₂).imp (fun h => lt_of_le_of_ne h.1 h.2)
  haveI : IsAntisymm (String × Json) (fun a b => a.1 < b.1) :=
    ⟨fun _ _ h1 h2 => absurd h1 (lt_asymm h2)⟩
  exact List.eq_of_perm_of_sorted hperm hlt₁ hlt₂

lemma sortJsonKVs_eq_map (l : List (String × Json)) :
    sortJsonKVs l = l.map (fun kv => (kv.1, sortJson kv.2)) := by
  induction l with
  | nil => simp [sortJsonKVs]
  | cons kv t ih => cases kv; simp [sortJsonKVs, ih]

lemma sortJsonKVs_keys (l : List (String × Json)) :
    (sortJsonKVs l).map Prod.fst = l.map Prod.fst := by
  rw [sortJsonKVs_eq_map, List.map_map]
  rfl

lemma hexChars_length (bs : List Nat) : (hexChars bs).length = 2 * bs.length := by
  induction bs with
  | nil => rfl
  | cons b t ih =>
      simp only [hexChars, List.flatMap_cons] at ih ⊢
      simp [ih]
      omega

lemma sha256Bytes_length (m : List Nat) : (sha256Bytes m).length = 32 := by
  simp [sha256Bytes, wordBytes]

/-! ## Claim theorems: canonical hashing -/

/-- C4: for JSON-like dictionaries `A` and `B` containing identical
key/value pairs but possibly different key insertion order,
`canonical_json A = canonical_json B`, and consequently
`hash_input_packet A = hash_input_packet B`. -/
theorem canonical_json_key_order_invariant
    (A B : List (String × Json))
    (hperm : List.Perm A B) (hnd : (A.map Prod.fst).Nodup) :
    canonical_json A = canonical_json B ∧
    hash_input_packet A = hash_input_packet B := by
  have hmap : List.Perm (sortJsonKVs A) (sortJsonKVs B) := by
    rw [sortJsonKVs_eq_map, sortJsonKVs_eq_map]
    exact hperm.map _
  have hnd' : ((sortJsonKVs A).map Prod.fst).Nodup := by
    rw [sortJsonKVs_keys]; exact hnd
  have hsort : sortByKey (sortJsonKVs A) = sortByKey (sortJsonKVs B) :=
    sortByKey_eq_of_perm _ _ hmap hnd'
  have hc : canonical_json A = canonical_json B := by
    show jsonDumpsCanonical (Json.obj A) = jsonDumpsCanonical (Json.obj B)
    unfold jsonDumpsCanonical
    show String.mk (emitJson (.obj (sortByKey (sortJsonKVs A)))) =
         String.mk (emitJson (.obj (sortByKey (sortJsonKVs B))))
    rw [hsort]
  exact ⟨hc, congrArg hash_content hc⟩

/-- The spec example packet, in its two insertion orders. -/
def c4PacketA : List (String × Json) :=
  [("prompt", .str "X"), ("context", .obj [("a", .num 1)])]

def c4PacketB : List (String × Json) :=
  [("context", .obj [("a", .num 1)]), ("prompt", .str "X")]

theorem canonical_json_key_order_invariant_witness :
    List.Perm c4PacketA c4PacketB ∧ (c4PacketA.map Prod.fst).Nodup ∧
    hash_input_packet c4PacketA = hash_input_packet c4PacketB := by
  have hperm : List.Perm c4PacketA c4PacketB := List.Perm.swap _ _ _
  have hnd : (c4PacketA.map Prod.fst).Nodup := by decide
  exact ⟨hperm, hnd,
    (canonical_json_key_order_invariant c4PacketA c4PacketB hperm hnd).2⟩

/-- C10: the hashing paths of `core/provenance.py` agree —
`hash_dict d = hash_content (canonical_json d) = hash_input_packet d` —
and each produces the 16-hex-character prefix of the SHA-256 digest of
the UTF-8 bytes of the canonical serialization. -/
theorem hash_paths_agree (d : List (String × Json)) :
    hash_dict d = hash_content (canonical_json d) ∧
    hash_input_packet d = hash_dict d ∧
    (hash_dict d).length = 16 ∧
    hash_dict d =
      String.mk ((hexChars (sha256Bytes (utf8Bytes (canonical_json d)))).take 16) := by
  refine ⟨rfl, rfl, ?_, rfl⟩
  show (String.mk ((hexChars (sha256Bytes (utf8Bytes (canonical_json d)))).take 16)).length = 16
  rw [String.length_mk, List.length_take, hexChars_length, sha256Bytes_length]
  rfl

/-! ## `core/base.py` — text contracts and provider interface

Raised Python exceptions are modelled by `PyErr`; `async` methods become
functions into `Except PyErr`. -/

inductive PyErr where
  | valueError (msg : String)
  | keyError (key : String)
  | modelNotFound (msg : String)
  | providerFailure (kind : String) (msg : String)
deriving DecidableEq

/-- The optional parameters of `AIIntegrator.generate` (its `temperature`,
`max_tokens`, `system_prompt` and `**kwargs` arguments). -/
structure GenOpts where
  temperature : Rat
  maxTokens : Option Int
  systemPrompt : Option String
  extra : List (String × Json)

/-- `AIRequest` (a plain dataclass: it has no `__post_init__`, so its
construction never validates anything and never fails). -/
structure AIRequest where
  prompt : String
  model : String
  temperature : Rat
  maxTokens : Option Int
  systemPrompt : Option String
  messages : Option (List (List (String × String)))
  parameters : Option (List (String × Json))

/-- Constructing an `AIRequest` the way `AIIntegrator.generate` does.
Modelled as `Except` (like `mkImageRequest`) to express the construction
outcome; the generated dataclass `__init__` performs no checks, so the
result is always `ok`. -/
def mkAIRequest (prompt model : String) (opts : GenOpts) : Except PyErr AIRequest :=
  .ok ⟨prompt, model, opts.temperature, opts.maxTokens, opts.systemPrompt,
       none, some opts.extra⟩

/-- `AIResponse`. -/
structure AIResponse where
  text : String
  model : String
  provider : String
  usage : Option (List (String × Int))
  rawResponse : Option Json
  metadata : Option (List (String × Json))

/-- `BaseProvider`: the capability contract of a text backend.  The
abstract `generate` method becomes a function field (any backend
behaviour, success or failure, is a value of this field). -/
structure BaseProvider where
  providerName : String
  availableModels : List String
  generate : AIRequest → Except PyErr AIResponse

/-- `BaseProvider.validate_model`: `model in self.get_available_models()`. -/
def BaseProvider.validate_model (p : BaseProvider) (model : String) : Bool :=
  p.availableModels.contains model

/-! ## `core/image_types.py` — image contracts -/

/-- `ImageSize`.  In the source, `SQUARE_HD = "1024x1024"` duplicates
`LARGE`'s value, so Python's `Enum` makes it an alias of `LARGE`;
`set(ImageSize)` therefore has these five members. -/
inductive ImageSize where
  | small
  | medium
  | large
  | wide
  | tall
deriving DecidableEq

def ImageSize.value : ImageSize → String
  | .small => "256x256"
  | .medium => "512x512"
  | .large => "1024x1024"
  | .wide => "1792x1024"
  | .tall => "1024x1792"

inductive ImageStyle where
  | photorealistic
  | artistic
  | technical
  | sketch
  | natural
  | vivid
deriving DecidableEq

def ImageStyle.value : ImageStyle → String
  | .photorealistic => "photorealistic"
  | .artistic => "artistic"
  | .technical => "technical"
  | .sketch => "sketch"
  | .natural => "natural"
  | .vivid => "vivid"

inductive ImageFormat where
  | png
  | jpeg
  | webp
  | b64Json
deriving DecidableEq

def ImageFormat.value : ImageFormat → String
  | .png => "png"
  | .jpeg => "jpeg"
  | .webp => "webp"
  | .b64Json => "b64_json"

def allImageSizes : List ImageSize := [.small, .medium, .large, .wide, .tall]

def allImageStyles : List ImageStyle :=
  [.photorealistic, .artistic, .technical, .sketch, .natural, .vivid]

def allImageFormats : List ImageFormat := [.png, .jpeg, .webp, .b64Json]

/-- `ImageRequest` (fields in dataclass order). -/
structure ImageRequest where
  prompt : String
  negativePrompt : Option String
  size : ImageSize
  style : ImageStyle
  format : ImageFormat
  numImages : Int
  seed : Option Int
  model : Option String
  quality : String
  parameters : Option (List (String × Json))
  designContext : Option (List (String × Json))

/-- ASCII whitespace stripped by `str.strip()`. -/
def isPySpace (c : Char) : Bool :=
  c == ' ' || c == '\t' || c == '\n' || c == '\r' || c == '\x0b' || c == '\x0c'

/-- `str.strip()` (on its ASCII-whitespace fragment). -/
def pyStrip (s : String) : String :=
  String.mk (((s.data.dropWhile isPySpace).reverse.dropWhile isPySpace).reverse)

/-- `ImageRequest.__post_init__`: constructing an `ImageRequest` runs
the three fail-fast checks, in source order. -/
def mkImageRequest (prompt : String) (negativePrompt : Option String)
    (size : ImageSize) (style : ImageStyle) (format : ImageFormat)
    (numImages : Int) (seed : Option Int) (model : Option String)
    (quality : String) (parameters : Option (List (String × Json)))
    (designContext : Option (List (String × Json))) :
    Except PyErr ImageRequest :=
  if prompt = "" || pyStrip prompt = "" then
    .error (.valueError "prompt cannot be empty")
  else if numImages < 1 then
    .error (.valueError "num_images must be at least 1")
  else if numImages > 10 then
    .error (.valueError "num_images cannot exceed 10")
  else
    .ok ⟨prompt, negativePrompt, size, style, format, numImages, seed, model,
         quality, parameters, designContext⟩

/-- `GeneratedImage`. -/
structure GeneratedImage where
  data : Option (List Nat)
  url : Option String
  revisedPrompt : Option String
  index : Int

/-- `ImageResponse`. -/
structure ImageResponse where
  images : List GeneratedImage
  model : String
  provider : String
  usage : Option (List (String × Json))
  metadata : Option (List (String × Json))
  requestId : Option String

/-! ## `providers/base_image_provider.py` -/

/-- `BaseImageProvider`: capability sets (the base-class property
defaults are all-sizes / all-styles / all-formats / max 4) plus the
abstract `generate_image`, again a function field. -/
structure BaseImageProvider where
  providerName : String
  availableModels : List String
  supportedSizes : List ImageSize
  supportedStyles : List ImageStyle
  supportedFormats : List ImageFormat
  maxImagesPerRequest : Int
  generate_image : ImageRequest → Except PyErr ImageResponse

def BaseImageProvider.supports_size (p : BaseImageProvider) (s : ImageSize) : Bool :=
  p.supportedSizes.contains s

def BaseImageProvider.supports_style (p : BaseImageProvider) (s : ImageStyle) : Bool :=
  p.supportedStyles.contains s

def BaseImageProvider.supports_format (p : BaseImageProvider) (f : ImageFormat) : Bool :=
  p.supportedFormats.contains f

def BaseImageProvider.validate_model (p : BaseImageProvider) (m : String) : Bool :=
  p.availableModels.contains m

/-- Python `repr` of a list of strings, as f-string interpolation shows it. -/
def pyStrListRepr (xs : List String) : String :=
  "[" ++ String.intercalate ", " (xs.map (fun s => "\x27" ++ s ++ "\x27")) ++ "]"

def sizeErrMsg (p : BaseImageProvider) (r : ImageRequest) : String :=
  "Size " ++ r.size.value ++ " not supported. Supported: " ++
    pyStrListRepr (p.supportedSizes.map ImageSize.value)

def styleErrMsg (p : BaseImageProvider) (r : ImageRequest) : String :=
  "Style " ++ r.style.value ++ " not supported. Supported: " ++
    pyStrListRepr (p.supportedStyles.map ImageStyle.value)

def formatErrMsg (p : BaseImageProvider) (r : ImageRequest) : String :=
  "Format " ++ r.format.value ++ " not supported. Supported: " ++
    pyStrListRepr (p.supportedFormats.map ImageFormat.value)

def batchErrMsg (p : BaseImageProvider) (r : ImageRequest) : String :=
  "num_images (" ++ toString r.numImages ++ ") exceeds maximum (" ++
    toString p.maxImagesPerRequest ++ ")"

def modelErrMsg (p : BaseImageProvider) (m : String) : String :=
  "Model \x27" ++ m ++ "\x27 not available. Available: " ++
    pyStrListRepr p.availableModels

/-- `BaseImageProvider.validate_request`: the five independent checks,
appended in source order.  Note the model check runs only when
`request.model` is truthy (`if request.model and not
self.validate_model(request.model)`), i.e. non-`None` and non-empty. -/
def BaseImageProvider.validate_request (p : BaseImageProvider) (r : ImageRequest) :
    List String :=
  (if p.supports_size r.size then [] else [sizeErrMsg p r]) ++
  (if p.supports_style r.style then [] else [styleErrMsg p r]) ++
  (if p.supports_format r.format then [] else [formatErrMsg p r]) ++
  (if r.numImages > p.maxImagesPerRequest then [batchErrMsg p r] else []) ++
  (match r.model with
   | some m => if m != "" && !(p.validate_model m) then [modelErrMsg p m] else []
   | none => [])

/-! ## `core/integrator.py` — registries, dispatch, fan-out -/

/-- `AIIntegrator.__init__`: two independent registries, each a dict
plus a "current default" name (`_default_provider`,
`_default_image_provider`). -/
structure AIIntegrator where
  providers : List (String × BaseProvider)
  defaultProvider : Option String
  imageProviders : List (String × BaseImageProvider)
  defaultImageProvider : Option String

def emptyIntegrator : AIIntegrator := ⟨[], none, [], none⟩

/-- `add_provider`. -/
def add_provider (ig : AIIntegrator) (name : String) (p : BaseProvider) :
    AIIntegrator :=
  { ig with
    providers := dictSet ig.providers name p,
    defaultProvider :=
      match ig.defaultProvider with
      | none => some name
      | some d => some d }

/-- `remove_provider`. -/
def remove_provider (ig : AIIntegrator) (name : String) : AIIntegrator :=
  if dictHas ig.providers name then
    let ps := dictRemove ig.providers name
    { ig with
      providers := ps,
      defaultProvider :=
        if ig.defaultProvider = some name then ps.head?.map Prod.fst
        else ig.defaultProvider }
  else ig

/-- `set_default_provider` (raises `ValueError` when absent). -/
def set_default_provider (ig : AIIntegrator) (name : String) :
    Except PyErr AIIntegrator :=
  if dictHas ig.providers name then .ok { ig with defaultProvider := some name }
  else .error (.valueError ("Provider \x27" ++ name ++ "\x27 not found"))

/-- `get_provider`.  The default branch indexes
`self.providers[self._default_provider]` directly; a dangling default
would be a `KeyError` (modelled, though unreachable from the API). -/
def get_provider (ig : AIIntegrator) (name : Option String) :
    Except PyErr BaseProvider :=
  match name with
  | none =>
      match ig.defaultProvider with
      | none => .error (.valueError "No providers configured")
      | some d =>
          match dictGet ig.providers d with
          | some p => .ok p
          | none => .error (.keyError d)
  | some n =>
      match dictGet ig.providers n with
      | some p => .ok p
      | none => .error (.valueError ("Provider \x27" ++ n ++ "\x27 not found"))

/-- `f"{provider or self._default_provider}"` in `generate`'s
`ModelNotFoundError` message. -/
def shownProviderName (ig : AIIntegrator) (provider : Option String) : String :=
  let dflt :=
    match ig.defaultProvider with
    | some d => d
    | none => "None"
  match provider with
  | some s => if s = "" then dflt else s
  | none => dflt

def modelNotFoundMsg (model shown : String) : String :=
  "Model \x27" ++ model ++ "\x27 not available from provider \x27" ++ shown ++ "\x27"

/-- `AIIntegrator.generate`: resolve the provider, build the request,
check the model against the provider's declared list, then (and only
then) call the backend. -/
def generate (ig : AIIntegrator) (prompt model : String)
    (provider : Option String) (opts : GenOpts) : Except PyErr AIResponse := do
  let providerInstance ← get_provider ig provider
  let request ← mkAIRequest prompt model opts
  if !(providerInstance.validate_model model) then
    .error (.modelNotFound (modelNotFoundMsg model (shownProviderName ig provider)))
  else
    providerInstance.generate request

/-- One entry of `generate_parallel`'s `providers_config`:
`config.get("model")` plus the rest of the entry (passed through to
`generate` after the `model` key is dropped). -/
structure TextCfg where
  model : Option String
  opts : GenOpts

/-- `if not model` — `None` or empty string. -/
def cfgModelMissing (c : TextCfg) : Bool :=
  match c.model with
  | none => true
  | some m => m == ""

/-- The `for`-loop accumulation in `generate_parallel`'s task-building
phase: stops (raises) at the first failing entry, like the source loop. -/
def exMapM {ε α β : Type} (f : α → Except ε β) : List α → Except ε (List β)
  | [] => .ok []
  | a :: t => do
      let b ← f a
      let bs ← exMapM f t
      .ok (b :: bs)

/-- The body of `generate_parallel`'s task-building loop for one entry:
`config.get("model")`, `if not model: raise ValueError(...)`, then the
`generate` coroutine for this provider (not yet awaited, hence the
`Unit` thunk). -/
def buildTextTask (ig : AIIntegrator) (prompt : String) (nc : String × TextCfg) :
    Except PyErr (String × (Unit → Except PyErr AIResponse)) :=
  match nc.2.model with
  | none =>
      .error (.valueError ("Model not specified for provider \x27" ++ nc.1 ++ "\x27"))
  | some m =>
      if m = "" then
        .error (.valueError ("Model not specified for provider \x27" ++ nc.1 ++ "\x27"))
      else
        .ok (nc.1, fun (_ : Unit) => generate ig prompt m (some nc.1) nc.2.opts)

/-- `AIIntegrator.generate_parallel`.  Phase 1 builds one task
(coroutine) per entry and raises `ValueError` if an entry names no
model; phase 2 is `asyncio.gather(..., return_exceptions=True)`: every
task runs and its outcome — response or exception — is kept as a value,
zipped back with the provider names. -/
def generate_parallel (ig : AIIntegrator) (prompt : String)
    (providersConfig : List (String × TextCfg)) :
    Except PyErr (List (String × Except PyErr AIResponse)) := do
  let tasks ← exMapM (buildTextTask ig prompt) providersConfig
  let results := (tasks.map Prod.snd).map (fun t => t ())
  .ok ((tasks.map Prod.fst).zip results)

/-- `add_image_provider`. -/
def add_image_provider (ig : AIIntegrator) (name : String)
    (p : BaseImageProvider) : AIIntegrator :=
  { ig with
    imageProviders := dictSet ig.imageProviders name p,
    defaultImageProvider :=
      match ig.defaultImageProvider with
      | none => some name
      | some d => some d }

/-- `remove_image_provider`. -/
def remove_image_provider (ig : AIIntegrator) (name : String) : AIIntegrator :=
  if dictHas ig.imageProviders name then
    let ps := dictRemove ig.imageProviders name
    { ig with
      imageProviders := ps,
      defaultImageProvider :=
        if ig.defaultImageProvider = some name then ps.head?.map Prod.fst
        else ig.defaultImageProvider }
  else ig

/-- `set_default_image_provider`. -/
def set_default_image_provider (ig : AIIntegrator) (name : String) :
    Except PyErr AIIntegrator :=
  if dictHas ig.imageProviders name then
    .ok { ig with defaultImageProvider := some name }
  else .error (.valueError ("Image provider \x27" ++ name ++ "\x27 not found"))

/-- `get_image_provider`. -/
def get_image_provider (ig : AIIntegrator) (name : Option String) :
    Except PyErr BaseImageProvider :=
  match name with
  | none =>
      match ig.defaultImageProvider with
      | none => .error (.valueError "No image providers configured")
      | some d =>
          match dictGet ig.imageProviders d with
          | some p => .ok p
          | none => .error (.keyError d)
  | some n =>
      match dictGet ig.imageProviders n with
      | some p => .ok p
      | none => .error (.valueError ("Image provider \x27" ++ n ++ "\x27 not found"))

/-- One entry of `generate_images_parallel`'s `providers_config`: the
keyword arguments forwarded to `generate_image` (its named parameters
and `**kwargs`). -/
structure ImgCfg where
  size : ImageSize
  style : ImageStyle
  numImages : Int
  model : Option String
  negativePrompt : Option String
  extra : List (String × Json)

/-- `AIIntegrator.generate_image`: resolve the provider, construct the
`ImageRequest` (its `__post_init__` may raise), validate against the
provider's capabilities, and only then call the backend.  `kwargs` goes
to `parameters` as `kwargs if kwargs else None`. -/
def generate_image (ig : AIIntegrator) (prompt : String)
    (provider : Option String) (cfg : ImgCfg) : Except PyErr ImageResponse := do
  let providerInstance ← get_image_provider ig provider
  let request ← mkImageRequest prompt cfg.negativePrompt cfg.size cfg.style
      ImageFormat.png cfg.numImages none cfg.model "standard"
      (if cfg.extra.isEmpty then none else some cfg.extra) none
  let errors := providerInstance.validate_request request
  if !errors.isEmpty then
    .error (.valueError ("Invalid image request: " ++ String.intercalate "; " errors))
  else
    providerInstance.generate_image request

/-- `AIIntegrator.generate_images_parallel`: build one task per entry
(no model check here — nothing in this loop raises), gather with
exceptions captured, zip names with outcomes. -/
def generate_images_parallel (ig : AIIntegrator) (prompt : String)
    (providersConfig : List (String × ImgCfg)) :
    List (String × Except PyErr ImageResponse) :=
  let tasks := providersConfig.map
    (fun nc => (nc.1, fun (_ : Unit) => generate_image ig prompt (some nc.1) nc.2))
  let results := (tasks.map Prod.snd).map (fun t => t ())
  (tasks.map Prod.fst).zip results

/-! ## Helper lemmas for the fan-out and dispatch theorems -/

lemma zip_fst_snd_map {α β γ : Type} (e : β → γ) (l : List (α × β)) :
    (l.map Prod.fst).zip ((l.map Prod.snd).map e) =
      l.map (fun x => (x.1, e x.2)) := by
  induction l with
  | nil => rfl
  | cons a t ih =>
      simp [List.map_map] at ih
      simp [List.map_map, ih]

lemma ok_bind {α β : Type} (x : α) (f : α → Except PyErr β) :
    (Except.ok x >>= f) = f x := rfl

lemma error_bind {α β : Type} (e : PyErr) (f : α → Except PyErr β) :
    ((Except.error e : Except PyErr α) >>= f) = .error e := rfl

lemma exMapM_ok_of_forall {α β : Type} (f : α → Except PyErr β) (g : α → β)
    (l : List α) (h : ∀ a ∈ l, f a = .ok (g a)) :
    exMapM f l = .ok (l.map g) := by
  induction l with
  | nil => rfl
  | cons a t ih =>
      have ha := h a (List.mem_cons_self a t)
      have ht := ih (fun x hx => h x (List.mem_cons_of_mem a hx))
      simp only [exMapM, ha, ht, List.map_cons]
      rfl

lemma buildTextTask_ok_of_present (ig : AIIntegrator) (prompt : String)
    (nc : String × TextCfg) (h : cfgModelMissing nc.2 = false) :
    buildTextTask ig prompt nc =
      .ok (nc.1, fun (_ : Unit) =>
        generate ig prompt (nc.2.model.getD "") (some nc.1) nc.2.opts) := by
  cases hm : nc.2.model with
  | none => rw [cfgModelMissing, hm] at h; exact absurd h (by simp)
  | some m =>
      rw [cfgModelMissing, hm] at h
      have hne : ¬ m = "" := by simpa using h
      simp [buildTextTask, hm, hne]

lemma buildTextTask_error_of_missing (ig : AIIntegrator) (prompt : String)
    (nc : String × TextCfg) (h : cfgModelMissing nc.2 = true) :
    buildTextTask ig prompt nc =
      .error (.valueError
        ("Model not specified for provider \x27" ++ nc.1 ++ "\x27")) := by
  cases hm : nc.2.model with
  | none => simp [buildTextTask, hm]
  | some m =>
      rw [cfgModelMissing, hm] at h
      have he : m = "" := by simpa using h
      simp [buildTextTask, hm, he]

/-! ## Claim theorems: fan-out ("all settle" isolation) -/

/-- C1: when every text entry names a model, `generate_parallel` returns
`ok` with one entry per configured provider (same keys, in order), each
key bound to the outcome — response or captured exception — of that
entry's own `generate` call and of nothing else; and
`generate_images_parallel` does the same for any image configs,
unconditionally.  Since each entry's outcome is a function of that entry
alone, no entry's failure can influence another entry or escape to the
caller. -/
theorem fanout_all_settle
    (ig : AIIntegrator) (prompt : String)
    (textCfgs : List (String × TextCfg)) (imgCfgs : List (String × ImgCfg))
    (hmodels : ∀ c ∈ textCfgs, cfgModelMissing c.2 = false) :
    generate_parallel ig prompt textCfgs =
      .ok (textCfgs.map (fun c =>
        (c.1, generate ig prompt (c.2.model.getD "") (some c.1) c.2.opts))) ∧
    (textCfgs.map (fun c =>
        (c.1, generate ig prompt (c.2.model.getD "") (some c.1) c.2.opts))).map
        Prod.fst = textCfgs.map Prod.fst ∧
    generate_images_parallel ig prompt imgCfgs =
      imgCfgs.map (fun c => (c.1, generate_image ig prompt (some c.1) c.2)) ∧
    (imgCfgs.map (fun c =>
        (c.1, generate_image ig prompt (some c.1) c.2))).map Prod.fst =
      imgCfgs.map Prod.fst := by
  refine ⟨?_, ?_, ?_, ?_⟩
  · have htasks : exMapM (buildTextTask ig prompt) textCfgs =
        .ok (textCfgs.map (fun c =>
          (c.1, fun (_ : Unit) =>
            generate ig prompt (c.2.model.getD "") (some c.1) c.2.opts))) :=
      exMapM_ok_of_forall _ _ _
        (fun c hc => buildTextTask_ok_of_present ig prompt c (hmodels c hc))
    simp only [generate_parallel, htasks, ok_bind]
    rw [zip_fst_snd_map]
    simp [List.map_map, Function.comp]
  · simp [List.map_map]
  · simp only [generate_images_parallel]
    rw [zip_fst_snd_map]
    simp [List.map_map]
  · simp [List.map_map]

/-- Shared orchestration fixture: one registered text provider
(`"mock"`) and one registered image provider (`"mockimg"`). -/
def fixtureOpts : GenOpts := ⟨7 / 10, none, none, []⟩

def fixtureTextProvider : BaseProvider :=
  ⟨"Mock Provider", ["mock-small", "mock-large"],
   fun req =>
     .ok ⟨"Mock response to: " ++ req.prompt, req.model, "Mock Provider",
          none, none, none⟩⟩

def fixtureImageProvider : BaseImageProvider :=
  ⟨"MockImage", ["mock-image-v1", "mock-image-v2"],
   allImageSizes, allImageStyles, allImageFormats, 4,
   fun req =>
     .ok ⟨[⟨none, some "https://mock.example.com/image_0.png", none, 0⟩],
          req.model.getD "mock-image-v1", "MockImage", none, none, none⟩⟩

def fixtureIntegrator : AIIntegrator :=
  add_image_provider (add_provider emptyIntegrator "mock" fixtureTextProvider)
    "mockimg" fixtureImageProvider

/-- C1 witness configs: a registered provider plus an unknown one (the
spec's `{"ok": valid, "bad": unknown-provider}` scenario). -/
def c1TextCfgs : List (String × TextCfg) :=
  [("mock", ⟨some "mock-small", fixtureOpts⟩),
   ("bad", ⟨some "gpt-4", fixtureOpts⟩)]

def c1ImgCfgs : List (String × ImgCfg) :=
  [("mockimg", ⟨.large, .photorealistic, 1, none, none, []⟩),
   ("badimg", ⟨.large, .photorealistic, 1, none, none, []⟩)]

theorem fanout_all_settle_witness :
    (∀ c ∈ c1TextCfgs, cfgModelMissing c.2 = false) ∧
    generate_parallel fixtureIntegrator "Explain AI" c1TextCfgs =
      .ok (c1TextCfgs.map (fun c =>
        (c.1, generate fixtureIntegrator "Explain AI" (c.2.model.getD "")
          (some c.1) c.2.opts))) ∧
    generate_images_parallel fixtureIntegrator "Guitar rosette" c1ImgCfgs =
      c1ImgCfgs.map (fun c =>
        (c.1, generate_image fixtureIntegrator "Guitar rosette" (some c.1) c.2)) := by
  have h : ∀ c ∈ c1TextCfgs, cfgModelMissing c.2 = false := by decide
  have hall := fanout_all_settle fixtureIntegrator "Explain AI" c1TextCfgs
    c1ImgCfgs h
  have hall2 := fanout_all_settle fixtureIntegrator "Guitar rosette" c1TextCfgs
    c1ImgCfgs h
  exact ⟨h, hall.1, hall2.2.2.1⟩

/-- C2 amended helper: the first entry, in iteration order, whose config
lacks a (truthy) model. -/
def firstMissingModel : List (String × TextCfg) → Option String
  | [] => none
  | c :: t => if cfgModelMissing c.2 then some c.1 else firstMissingModel t

lemma exMapM_buildTextTask_error (ig : AIIntegrator) (prompt : String)
    (cfgs : List (String × TextCfg)) (n : String)
    (h : firstMissingModel cfgs = some n) :
    exMapM (buildTextTask ig prompt) cfgs =
      .error (.valueError
        ("Model not specified for provider \x27" ++ n ++ "\x27")) := by
  induction cfgs with
  | nil => exact absurd h (by simp [firstMissingModel])
  | cons c t ih =>
      by_cases hm : cfgModelMissing c.2 = true
      · rw [firstMissingModel, if_pos hm] at h
        have hn : c.1 = n := by simpa using h
        subst hn
        simp only [exMapM, buildTextTask_error_of_missing ig prompt c hm]
        rfl
      · rw [firstMissingModel, if_neg hm] at h
        have hc : cfgModelMissing c.2 = false := by
          simpa using hm
        simp only [exMapM, buildTextTask_ok_of_present ig prompt c hc, ih h]
        rfl

/-- C2 (amended): when some entry of `providers_config` lacks a model,
`generate_parallel` raises that `ValueError` to the caller — a global
abort naming the first offending provider; no result mapping is
returned. -/
theorem generate_parallel_missing_model_aborts
    (ig : AIIntegrator) (prompt : String)
    (cfgs : List (String × TextCfg)) (n : String)
    (h : firstMissingModel cfgs = some n) :
    generate_parallel ig prompt cfgs =
      .error (.valueError
        ("Model not specified for provider \x27" ++ n ++ "\x27")) := by
  simp only [generate_parallel, exMapM_buildTextTask_error ig prompt cfgs n h]
  rfl

/-- C2 counterexample configs: `"bad"` carries no model. -/
def c2Cfgs : List (String × TextCfg) :=
  [("mock", ⟨some "mock-small", fixtureOpts⟩), ("bad", ⟨none, fixtureOpts⟩)]

/-- C2 counterexample: with a well-configured `"mock"` entry and a
model-less `"bad"` entry, `generate_parallel` does not return a mapping
covering every entry — it raises `ValueError` to the caller. -/
theorem generate_parallel_missing_model_counterexample :
    generate_parallel fixtureIntegrator "hi" c2Cfgs =
      .error (.valueError "Model not specified for provider \x27bad\x27") := by
  rfl

theorem generate_parallel_missing_model_aborts_witness :
    firstMissingModel c2Cfgs = some "bad" ∧
    generate_parallel fixtureIntegrator "hello" c2Cfgs =
      .error (.valueError
        ("Model not specified for provider \x27" ++ "bad" ++ "\x27")) := by
  refine ⟨by rfl, ?_⟩
  exact generate_parallel_missing_model_aborts fixtureIntegrator "hello" c2Cfgs
    "bad" (by rfl)

/-! ## Claim theorems: validation precedes any backend call

"The backend is never invoked" is expressed by showing the dispatch
outcome is unchanged when every registered provider's backend function
is replaced by an arbitrary one. -/

def withBackend (g : AIRequest → Except PyErr AIResponse) (p : BaseProvider) :
    BaseProvider :=
  { p with generate := g }

def withImageBackend (g : ImageRequest → Except PyErr ImageResponse)
    (p : BaseImageProvider) : BaseImageProvider :=
  { p with generate_image := g }

def mapTextBackends (ig : AIIntegrator)
    (g : AIRequest → Except PyErr AIResponse) : AIIntegrator :=
  { ig with
    providers := ig.providers.map (fun kv => (kv.1, withBackend g kv.2)) }

def mapImageBackends (ig : AIIntegrator)
    (g : ImageRequest → Except PyErr ImageResponse) : AIIntegrator :=
  { ig with
    imageProviders :=
      ig.imageProviders.map (fun kv => (kv.1, withImageBackend g kv.2)) }

lemma dictGet_map {α β : Type} (f : α → β) (l : List (String × α)) (k : String) :
    dictGet (l.map (fun kv => (kv.1, f kv.2))) k = (dictGet l k).map f := by
  induction l with
  | nil => rfl
  | cons a t ih =>
      rcases a with ⟨k1, v⟩
      by_cases h : k1 = k
      · simp [dictGet, h]
      · simp [dictGet, h, ih]

lemma get_provider_mapTextBackends (ig : AIIntegrator)
    (g : AIRequest → Except PyErr AIResponse) (provider : Option String)
    (p : BaseProvider) (h : get_provider ig provider = .ok p) :
    get_provider (mapTextBackends ig g) provider = .ok (withBackend g p) := by
  cases provider with
  | none =>
      cases hd : ig.defaultProvider with
      | none => simp [get_provider, hd] at h
      | some d =>
          cases hp : dictGet ig.providers d with
          | none => simp [get_provider, hd, hp] at h
          | some q =>
              simp only [get_provider, hd, hp] at h
              have hq : q = p := by simpa using h
              subst hq
              simp [get_provider, mapTextBackends, hd, dictGet_map, hp]
  | some n =>
      cases hp : dictGet ig.providers n with
      | none => simp [get_provider, hp] at h
      | some q =>
          simp only [get_provider, hp] at h
          have hq : q = p := by simpa using h
          subst hq
          simp [get_provider, mapTextBackends, dictGet_map, hp]

lemma get_image_provider_mapImageBackends (ig : AIIntegrator)
    (g : ImageRequest → Except PyErr ImageResponse) (provider : Option String)
    (p : BaseImageProvider) (h : get_image_provider ig provider = .ok p) :
    get_image_provider (mapImageBackends ig g) provider =
      .ok (withImageBackend g p) := by
  cases provider with
  | none =>
      cases hd : ig.defaultImageProvider with
      | none => simp [get_image_provider, hd] at h
      | some d =>
          cases hp : dictGet ig.imageProviders d with
          | none => simp [get_image_provider, hd, hp] at h
          | some q =>
              simp only [get_image_provider, hd, hp] at h
              have hq : q = p := by simpa using h
              subst hq
              simp [get_image_provider, mapImageBackends, hd, dictGet_map, hp]
  | some n =>
      cases hp : dictGet ig.imageProviders n with
      | none => simp [get_image_provider, hp] at h
      | some q =>
          simp only [get_image_provider, hp] at h
          have hq : q = p := by simpa using h
          subst hq
          simp [get_image_provider, mapImageBackends, dictGet_map, hp]

lemma generate_model_not_found (ig : AIIntegrator) (prompt model : String)
    (provider : Option String) (opts : GenOpts) (p : BaseProvider)
    (h : get_provider ig provider = .ok p)
    (hv : p.validate_model model = false) :
    generate ig prompt model provider opts =
      .error (.modelNotFound
        (modelNotFoundMsg model (shownProviderName ig provider))) := by
  simp [generate, h, ok_bind, mkAIRequest, hv]

lemma generate_image_invalid_request (ig : AIIntegrator) (prompt : String)
    (provider : Option String) (cfg : ImgCfg) (p : BaseImageProvider)
    (req : ImageRequest)
    (h : get_image_provider ig provider = .ok p)
    (hreq : mkImageRequest prompt cfg.negativePrompt cfg.size cfg.style
      ImageFormat.png cfg.numImages none cfg.model "standard"
      (if cfg.extra.isEmpty then none else some cfg.extra) none = .ok req)
    (hv : p.validate_request req ≠ []) :
    generate_image ig prompt provider cfg =
      .error (.valueError ("Invalid image request: " ++
        String.intercalate "; " (p.validate_request req))) := by
  have hne : (p.validate_request req).isEmpty = false := by
    simpa [List.isEmpty_iff] using hv
  simp [generate_image, h, ok_bind, hreq, hne]
  intro hcontra
  exact absurd hcontra hv

/-- C5: single dispatch validates before calling any backend.  Text: if
the resolved provider does not list the model, `generate` raises
`ModelNotFound` naming the offending model and the resolved provider —
and the outcome is unchanged whatever the backends are (they are never
invoked).  Image: if the resolved provider's `validate_request` returns
a non-empty violation list, `generate_image` raises a validation error
joining every violation, again independently of the backends. -/
theorem validation_precedes_backend :
    (∀ (ig : AIIntegrator) (prompt model : String) (provider : Option String)
       (opts : GenOpts) (p : BaseProvider),
       get_provider ig provider = .ok p →
       p.validate_model model = false →
       generate ig prompt model provider opts =
         .error (.modelNotFound
           (modelNotFoundMsg model (shownProviderName ig provider))) ∧
       ∀ g, generate (mapTextBackends ig g) prompt model provider opts =
         .error (.modelNotFound
           (modelNotFoundMsg model (shownProviderName ig provider)))) ∧
    (∀ (ig : AIIntegrator) (prompt : String) (provider : Option String)
       (cfg : ImgCfg) (p : BaseImageProvider) (req : ImageRequest),
       get_image_provider ig provider = .ok p →
       mkImageRequest prompt cfg.negativePrompt cfg.size cfg.style
         ImageFormat.png cfg.numImages none cfg.model "standard"
         (if cfg.extra.isEmpty then none else some cfg.extra) none = .ok req →
       p.validate_request req ≠ [] →
       generate_image ig prompt provider cfg =
         .error (.valueError ("Invalid image request: " ++
           String.intercalate "; " (p.validate_request req))) ∧
       ∀ g, generate_image (mapImageBackends ig g) prompt provider cfg =
         .error (.valueError ("Invalid image request: " ++
           String.intercalate "; " (p.validate_request req)))) := by
  constructor
  · intro ig prompt model provider opts p h hv
    refine ⟨generate_model_not_found ig prompt model provider opts p h hv, ?_⟩
    intro g
    exact generate_model_not_found (mapTextBackends ig g) prompt model provider
      opts (withBackend g p) (get_provider_mapTextBackends ig g provider p h) hv
  · intro ig prompt provider cfg p req h hreq hv
    refine ⟨generate_image_invalid_request ig prompt provider cfg p req h hreq hv, ?_⟩
    intro g
    exact generate_image_invalid_request (mapImageBackends ig g) prompt provider
      cfg (withImageBackend g p) req
      (get_image_provider_mapImageBackends ig g provider p h) hreq hv

def c5ImgCfg : ImgCfg := ⟨.large, .photorealistic, 5, none, none, []⟩

def c5Req : ImageRequest :=
  ⟨"A guitar rosette", none, .large, .photorealistic, .png, 5, none, none,
   "standard", none, none⟩

theorem validation_precedes_backend_witness :
    get_provider fixtureIntegrator (some "mock") = .ok fixtureTextProvider ∧
    fixtureTextProvider.validate_model "gpt-4" = false ∧
    generate fixtureIntegrator "Explain AI" "gpt-4" (some "mock") fixtureOpts =
      .error (.modelNotFound (modelNotFoundMsg "gpt-4"
        (shownProviderName fixtureIntegrator (some "mock")))) ∧
    get_image_provider fixtureIntegrator (some "mockimg") =
      .ok fixtureImageProvider ∧
    fixtureImageProvider.validate_request c5Req ≠ [] ∧
    generate_image fixtureIntegrator "A guitar rosette" (some "mockimg") c5ImgCfg =
      .error (.valueError ("Invalid image request: " ++
        String.intercalate "; " (fixtureImageProvider.validate_request c5Req))) := by
  have h1 : get_provider fixtureIntegrator (some "mock") = .ok fixtureTextProvider := by
    rfl
  have h2 : fixtureTextProvider.validate_model "gpt-4" = false := by rfl
  have h4 : get_image_provider fixtureIntegrator (some "mockimg") =
      .ok fixtureImageProvider := by rfl
  have h5 : mkImageRequest "A guitar rosette" c5ImgCfg.negativePrompt
      c5ImgCfg.size c5ImgCfg.style ImageFormat.png c5ImgCfg.numImages none
      c5ImgCfg.model "standard"
      (if c5ImgCfg.extra.isEmpty then none else some c5ImgCfg.extra) none =
      .ok c5Req := by rfl
  have h6 : fixtureImageProvider.validate_request c5Req ≠ [] := by decide
  exact ⟨h1, h2,
    (validation_precedes_backend.1 fixtureIntegrator "Explain AI" "gpt-4"
      (some "mock") fixtureOpts fixtureTextProvider h1 h2).1,
    h4, h6,
    (validation_precedes_backend.2 fixtureIntegrator "A guitar rosette"
      (some "mockimg") c5ImgCfg fixtureImageProvider c5Req h4 h5 h6).1⟩

/-! ## Claim theorems: registry default invariant

The two registries evolve through `add_provider` / `remove_provider` /
`set_default_provider` (and their image counterparts).  `RegOp` is an
arbitrary interleaving of those operations; a failing `set_default`
raises and leaves the state unchanged. -/

inductive RegOp where
  | addText (name : String) (p : BaseProvider)
  | removeText (name : String)
  | setDefaultText (name : String)
  | addImage (name : String) (p : BaseImageProvider)
  | removeImage (name : String)
  | setDefaultImage (name : String)

def applyOp (ig : AIIntegrator) : RegOp → AIIntegrator
  | .addText n p => add_provider ig n p
  | .removeText n => remove_provider ig n
  | .setDefaultText n =>
      match set_default_provider ig n with
      | .ok s => s
      | .error _ => ig
  | .addImage n p => add_image_provider ig n p
  | .removeImage n => remove_image_provider ig n
  | .setDefaultImage n =>
      match set_default_image_provider ig n with
      | .ok s => s
      | .error _ => ig

def runOps (ops : List RegOp) : AIIntegrator :=
  ops.foldl applyOp emptyIntegrator

/-- The (strong, executable) registry invariant: the default, when set,
is a present key; when unset, the map is empty. -/
def regInvB {α : Type} (l : List (String × α)) (dflt : Option String) : Bool :=
  match dflt with
  | some d => (l.map Prod.fst).contains d
  | none => l.isEmpty

def textRegistryInvB (ig : AIIntegrator) : Bool :=
  regInvB ig.providers ig.defaultProvider

def imageRegistryInvB (ig : AIIntegrator) : Bool :=
  regInvB ig.imageProviders ig.defaultImageProvider

/-! ### Dict-key lemmas -/

lemma dictHas_iff_mem {α : Type} (l : List (String × α)) (k : String) :
    dictHas l k = true ↔ k ∈ l.map Prod.fst := by
  induction l with
  | nil => simp [dictHas, dictGet]
  | cons a t ih =>
      rcases a with ⟨k1, v⟩
      by_cases h : k1 = k
      · simp [dictHas, dictGet, h]
      · simp only [dictHas, dictGet, if_neg h] at ih ⊢
        simp [ih, h, Ne.symm h]

lemma mem_keys_dictSet {α : Type} (l : List (String × α)) (k a : String) (v : α) :
    a ∈ (dictSet l k v).map Prod.fst ↔ a ∈ l.map Prod.fst ∨ a = k := by
  induction l with
  | nil => simp [dictSet]
  | cons b t ih =>
      rcases b with ⟨k1, w⟩
      by_cases h : k1 = k
      · subst h
        simp [dictSet]
        tauto
      · simp [dictSet, h, ih]
        tauto

lemma mem_keys_dictRemove_of_ne {α : Type} (l : List (String × α)) (k a : String)
    (h : a ≠ k) :
    a ∈ (dictRemove l k).map Prod.fst ↔ a ∈ l.map Prod.fst := by
  induction l with
  | nil => simp [dictRemove]
  | cons b t ih =>
      rcases b with ⟨k1, w⟩
      by_cases hk : k1 = k
      · subst hk
        simp [dictRemove, h]
      · simp [dictRemove, hk, ih]

lemma head_keys_mem {α : Type} (l : List (String × α)) (d : String)
    (h : l.head?.map Prod.fst = some d) : d ∈ l.map Prod.fst := by
  cases l with
  | nil => simp at h
  | cons a t =>
      have h1 : a.1 = d := by simpa using h
      rw [← h1]
      exact List.mem_map_of_mem Prod.fst (List.mem_cons_self a t)

/-! ### Invariant preservation, generically over the payload type -/

lemma regInvB_some_mem {α : Type} (l : List (String × α)) (d : String)
    (h : regInvB l (some d) = true) : d ∈ l.map Prod.fst :=
  List.elem_iff.mp h

lemma regInvB_of_mem {α : Type} (l : List (String × α)) (d : String)
    (h : d ∈ l.map Prod.fst) : regInvB l (some d) = true :=
  List.elem_iff.mpr h

lemma regInvB_none_nil {α : Type} (l : List (String × α))
    (h : regInvB l none = true) : l = [] :=
  List.isEmpty_iff.mp h

lemma regInvB_remove {α : Type} (l : List (String × α)) (dflt : Option String)
    (n : String) (h : regInvB l dflt = true) :
    regInvB (dictRemove l n)
      (if dflt = some n then (dictRemove l n).head?.map Prod.fst else dflt) =
      true := by
  by_cases hdn : dflt = some n
  · subst hdn
    rw [if_pos rfl]
    cases hh : (dictRemove l n).head? with
    | none =>
        have hnil : dictRemove l n = [] := List.head?_eq_none_iff.mp hh
        rw [hnil]
        rfl
    | some hd =>
        show regInvB (dictRemove l n) (some hd.1) = true
        exact regInvB_of_mem _ _ (head_keys_mem _ _ (by rw [hh]; rfl))
  · rw [if_neg hdn]
    cases dflt with
    | none =>
        have hnil := regInvB_none_nil l h
        subst hnil
        rfl
    | some d =>
        have hd := regInvB_some_mem l d h
        have hne : d ≠ n := fun he => hdn (by rw [he])
        exact regInvB_of_mem _ _ ((mem_keys_dictRemove_of_ne l n d hne).mpr hd)

lemma regInvB_setDefault {α : Type} (l : List (String × α)) (n : String)
    (h : dictHas l n = true) : regInvB l (some n) = true :=
  regInvB_of_mem _ _ ((dictHas_iff_mem l n).mp h)

lemma regInvB_dictSet_self {α : Type} (l : List (String × α)) (n : String)
    (v : α) : regInvB (dictSet l n v) (some n) = true :=
  regInvB_of_mem _ _ ((mem_keys_dictSet l n n v).mpr (Or.inr rfl))

lemma regInvB_dictSet_keep {α : Type} (l : List (String × α)) (d n : String)
    (v : α) (h : regInvB l (some d) = true) :
    regInvB (dictSet l n v) (some d) = true :=
  regInvB_of_mem _ _
    ((mem_keys_dictSet l n d v).mpr (Or.inl (regInvB_some_mem l d h)))

/-! ### Preservation on the integrator -/

lemma remove_provider_cases (ig : AIIntegrator) (n : String) :
    remove_provider ig n =
      if dictHas ig.providers n then
        { ig with
          providers := dictRemove ig.providers n,
          defaultProvider :=
            if ig.defaultProvider = some n then
              (dictRemove ig.providers n).head?.map Prod.fst
            else ig.defaultProvider }
      else ig := by
  rfl

lemma remove_image_provider_cases (ig : AIIntegrator) (n : String) :
    remove_image_provider ig n =
      if dictHas ig.imageProviders n then
        { ig with
          imageProviders := dictRemove ig.imageProviders n,
          defaultImageProvider :=
            if ig.defaultImageProvider = some n then
              (dictRemove ig.imageProviders n).head?.map Prod.fst
            else ig.defaultImageProvider }
      else ig := by
  rfl

lemma applyOp_pres_text (ig : AIIntegrator) (op : RegOp)
    (h : textRegistryInvB ig = true) :
    textRegistryInvB (applyOp ig op) = true := by
  cases op with
  | addText n p =>
      show textRegistryInvB (add_provider ig n p) = true
      cases hd : ig.defaultProvider with
      | none =>
          show regInvB _ _ = true
          simp only [add_provider, hd]
          exact regInvB_dictSet_self ig.providers n p
      | some d =>
          show regInvB _ _ = true
          simp only [add_provider, hd]
          rw [textRegistryInvB, hd] at h
          exact regInvB_dictSet_keep ig.providers d n p h
  | removeText n =>
      show textRegistryInvB (remove_provider ig n) = true
      rw [remove_provider_cases]
      by_cases hh : dictHas ig.providers n = true
      · rw [if_pos hh]
        exact regInvB_remove ig.providers ig.defaultProvider n h
      · rw [if_neg (by simpa using hh)]
        exact h
  | setDefaultText n =>
      show textRegistryInvB
        (match set_default_provider ig n with
         | .ok s => s | .error _ => ig) = true
      by_cases hh : dictHas ig.providers n = true
      · simp only [set_default_provider, hh, if_true]
        exact regInvB_setDefault ig.providers n hh
      · have hf : dictHas ig.providers n = false := by simpa using hh
        simp only [set_default_provider, hf, Bool.false_eq_true, if_false]
        exact h
  | addImage n p => exact h
  | removeImage n =>
      show textRegistryInvB (remove_image_provider ig n) = true
      rw [remove_image_provider_cases]
      by_cases hh : dictHas ig.imageProviders n = true
      · rw [if_pos hh]
        exact h
      · rw [if_neg (by simpa using hh)]
        exact h
  | setDefaultImage n =>
      show textRegistryInvB
        (match set_default_image_provider ig n with
         | .ok s => s | .error _ => ig) = true
      by_cases hh : dictHas ig.imageProviders n = true
      · simp only [set_default_image_provider, hh, if_true]
        exact h
      · have hf : dictHas ig.imageProviders n = false := by simpa using hh
        simp only [set_default_image_provider, hf, Bool.false_eq_true, if_false]
        exact h

lemma applyOp_pres_image (ig : AIIntegrator) (op : RegOp)
    (h : imageRegistryInvB ig = true) :
    imageRegistryInvB (applyOp ig op) = true := by
  cases op with
  | addImage n p =>
      show imageRegistryInvB (add_image_provider ig n p) = true
      cases hd : ig.defaultImageProvider with
      | none =>
          show regInvB _ _ = true
          simp only [add_image_provider, hd]
          exact regInvB_dictSet_self ig.imageProviders n p
      | some d =>
          show regInvB _ _ = true
          simp only [add_image_provider, hd]
          rw [imageRegistryInvB, hd] at h
          exact regInvB_dictSet_keep ig.imageProviders d n p h
  | removeImage n =>
      show imageRegistryInvB (remove_image_provider ig n) = true
      rw [remove_image_provider_cases]
      by_cases hh : dictHas ig.imageProviders n = true
      · rw [if_pos hh]
        exact regInvB_remove ig.imageProviders ig.defaultImageProvider n h
      · rw [if_neg (by simpa using hh)]
        exact h
  | setDefaultImage n =>
      show imageRegistryInvB
        (match set_default_image_provider ig n with
         | .ok s => s | .error _ => ig) = true
      by_cases hh : dictHas ig.imageProviders n = true
      · simp only [set_default_image_provider, hh, if_true]
        exact regInvB_setDefault ig.imageProviders n hh
      · have hf : dictHas ig.imageProviders n = false := by simpa using hh
        simp only [set_default_image_provider, hf, Bool.false_eq_true, if_false]
        exact h
  | addText n p => exact h
  | removeText n =>
      show imageRegistryInvB (remove_provider ig n) = true
      rw [remove_provider_cases]
      by_cases hh : dictHas ig.providers n = true
      · rw [if_pos hh]
        exact h
      · rw [if_neg (by simpa using hh)]
        exact h
  | setDefaultText n =>
      show imageRegistryInvB
        (match set_default_provider ig n with
         | .ok s => s | .error _ => ig) = true
      by_cases hh : dictHas ig.providers n = true
      · simp only [set_default_provider, hh, if_true]
        exact h
      · have hf : dictHas ig.providers n = false := by simpa using hh
        simp only [set_default_provider, hf, Bool.false_eq_true, if_false]
        exact h

lemma runOps_inv (ops : List RegOp) :
    textRegistryInvB (runOps ops) = true ∧
    imageRegistryInvB (runOps ops) = true := by
  have main : ∀ (l : List RegOp) (s : AIIntegrator),
      textRegistryInvB s = true → imageRegistryInvB s = true →
      textRegistryInvB (l.foldl applyOp s) = true ∧
      imageRegistryInvB (l.foldl applyOp s) = true := by
    intro l
    induction l with
    | nil => intro s h1 h2; exact ⟨h1, h2⟩
    | cons op t ih =>
        intro s h1 h2
        exact ih (applyOp s op) (applyOp_pres_text s op h1)
          (applyOp_pres_image s op h2)
  exact main ops emptyIntegrator rfl rfl

/-- The registry part of a remove operation, as a pair
`(new map, new default)` — used to share reasoning between the text and
image registries. -/
def regRemovePair {α : Type} (l : List (String × α)) (dflt : Option String)
    (n : String) : List (String × α) × Option String :=
  if dictHas l n then
    (dictRemove l n,
     if dflt = some n then (dictRemove l n).head?.map Prod.fst else dflt)
  else (l, dflt)

lemma remove_provider_eq_pair (ig : AIIntegrator) (n : String) :
    remove_provider ig n =
      { ig with
        providers := (regRemovePair ig.providers ig.defaultProvider n).1,
        defaultProvider := (regRemovePair ig.providers ig.defaultProvider n).2 } := by
  by_cases hh : dictHas ig.providers n = true
  · simp [remove_provider, regRemovePair, hh]
  · have hf : dictHas ig.providers n = false := by simpa using hh
    simp [remove_provider, regRemovePair, hf]

lemma remove_image_provider_eq_pair (ig : AIIntegrator) (n : String) :
    remove_image_provider ig n =
      { ig with
        imageProviders :=
          (regRemovePair ig.imageProviders ig.defaultImageProvider n).1,
        defaultImageProvider :=
          (regRemovePair ig.imageProviders ig.defaultImageProvider n).2 } := by
  by_cases hh : dictHas ig.imageProviders n = true
  · simp [remove_image_provider, regRemovePair, hh]
  · have hf : dictHas ig.imageProviders n = false := by simpa using hh
    simp [remove_image_provider, regRemovePair, hf]

lemma regRemovePair_reassign {α : Type} (l : List (String × α))
    (dflt : Option String) (n : String) (hB : regInvB l dflt = true)
    (hdef : dflt = some n) (hne : (regRemovePair l dflt n).1 ≠ []) :
    ∃ d, (regRemovePair l dflt n).2 = some d ∧
      d ∈ (regRemovePair l dflt n).1.map Prod.fst := by
  subst hdef
  by_cases hh : dictHas l n = true
  · simp only [regRemovePair, hh, if_true, if_pos rfl] at hne ⊢
    cases hl : dictRemove l n with
    | nil => exact absurd hl hne
    | cons a t =>
        refine ⟨a.1, rfl, ?_⟩
        exact List.mem_map_of_mem Prod.fst (List.mem_cons_self a t)
  · have hf : dictHas l n = false := by simpa using hh
    simp only [regRemovePair, hf, Bool.false_eq_true, if_false]
    exact ⟨n, rfl, regInvB_some_mem l n hB⟩

lemma regRemovePair_empty {α : Type} (l : List (String × α))
    (dflt : Option String) (n : String) (hB : regInvB l dflt = true)
    (hempty : (regRemovePair l dflt n).1 = []) :
    (regRemovePair l dflt n).2 = none := by
  by_cases hh : dictHas l n = true
  · simp only [regRemovePair, hh, if_true] at hempty ⊢
    by_cases hdn : dflt = some n
    · rw [if_pos hdn, hempty]
      rfl
    · rw [if_neg hdn]
      cases hd : dflt with
      | none => rfl
      | some d =>
          rw [hd] at hB hdn
          have hmem := regInvB_some_mem l d hB
          have hne : d ≠ n := fun he => hdn (by rw [he])
          have : d ∈ (dictRemove l n).map Prod.fst :=
            (mem_keys_dictRemove_of_ne l n d hne).mpr hmem
          rw [hempty] at this
          simp at this
  · have hf : dictHas l n = false := by simpa using hh
    simp only [regRemovePair, hf, Bool.false_eq_true, if_false] at hempty ⊢
    cases hd : dflt with
    | none => rfl
    | some d =>
        rw [hd] at hB
        have hmem := regInvB_some_mem l d hB
        rw [hempty] at hmem
        simp at hmem

/-- C3: for both registries, every `add` / `remove` / `set-default`
sequence from the empty integrator preserves the invariant (a set
default is a present key; an empty map has no default); adding to a
registry with no default selects the added name as default (so after
adding P1 then P2 the default is P1); removing the current default with
other entries remaining reassigns the default to some remaining
registered name; and removing the last entry leaves the default absent,
after which `get` with no name fails with the no-providers-configured
error. -/
theorem registry_default_invariant :
    (∀ ops : List RegOp,
      ((∀ d, (runOps ops).defaultProvider = some d →
          d ∈ (runOps ops).providers.map Prod.fst) ∧
       ((runOps ops).providers = [] → (runOps ops).defaultProvider = none)) ∧
      ((∀ d, (runOps ops).defaultImageProvider = some d →
          d ∈ (runOps ops).imageProviders.map Prod.fst) ∧
       ((runOps ops).imageProviders = [] →
          (runOps ops).defaultImageProvider = none))) ∧
    (∀ (ig : AIIntegrator) (n : String) (p : BaseProvider),
      ig.defaultProvider = none →
      (add_provider ig n p).defaultProvider = some n) ∧
    (∀ (n1 : String) (p1 : BaseProvider) (n2 : String) (p2 : BaseProvider),
      (add_provider (add_provider emptyIntegrator n1 p1) n2 p2).defaultProvider =
        some n1) ∧
    (∀ (ig : AIIntegrator) (n : String), textRegistryInvB ig = true →
      ig.defaultProvider = some n → (remove_provider ig n).providers ≠ [] →
      ∃ d, (remove_provider ig n).defaultProvider = some d ∧
        d ∈ (remove_provider ig n).providers.map Prod.fst) ∧
    (∀ (ig : AIIntegrator) (n : String), textRegistryInvB ig = true →
      (remove_provider ig n).providers = [] →
      (remove_provider ig n).defaultProvider = none ∧
      get_provider (remove_provider ig n) none =
        .error (.valueError "No providers configured")) ∧
    (∀ (ig : AIIntegrator) (n : String) (p : BaseImageProvider),
      ig.defaultImageProvider = none →
      (add_image_provider ig n p).defaultImageProvider = some n) ∧
    (∀ (n1 : String) (p1 : BaseImageProvider) (n2 : String)
       (p2 : BaseImageProvider),
      (add_image_provider (add_image_provider emptyIntegrator n1 p1) n2
        p2).defaultImageProvider = some n1) ∧
    (∀ (ig : AIIntegrator) (n : String), imageRegistryInvB ig = true →
      ig.defaultImageProvider = some n →
      (remove_image_provider ig n).imageProviders ≠ [] →
      ∃ d, (remove_image_provider ig n).defaultImageProvider = some d ∧
        d ∈ (remove_image_provider ig n).imageProviders.map Prod.fst) ∧
    (∀ (ig : AIIntegrator) (n : String), imageRegistryInvB ig = true →
      (remove_image_provider ig n).imageProviders = [] →
      (remove_image_provider ig n).defaultImageProvider = none ∧
      get_image_provider (remove_image_provider ig n) none =
        .error (.valueError "No image providers configured")) := by
  refine ⟨?_, ?_, ?_, ?_, ?_, ?_, ?_, ?_, ?_⟩
  · intro ops
    obtain ⟨h1, h2⟩ := runOps_inv ops
    refine ⟨⟨?_, ?_⟩, ⟨?_, ?_⟩⟩
    · intro d hd
      rw [textRegistryInvB, hd] at h1
      exact regInvB_some_mem _ _ h1
    · intro hnil
      cases hd : (runOps ops).defaultProvider with
      | none => rfl
      | some d =>
          rw [textRegistryInvB, hd, hnil] at h1
          simp [regInvB] at h1
    · intro d hd
      rw [imageRegistryInvB, hd] at h2
      exact regInvB_some_mem _ _ h2
    · intro hnil
      cases hd : (runOps ops).defaultImageProvider with
      | none => rfl
      | some d =>
          rw [imageRegistryInvB, hd, hnil] at h2
          simp [regInvB] at h2
  · intro ig n p h
    simp [add_provider, h]
  · intro n1 p1 n2 p2
    rfl
  · intro ig n hB hdef hne
    rw [remove_provider_eq_pair] at hne ⊢
    rw [textRegistryInvB] at hB
    exact regRemovePair_reassign ig.providers ig.defaultProvider n hB hdef hne
  · intro ig n hB hempty
    rw [remove_provider_eq_pair] at hempty ⊢
    rw [textRegistryInvB] at hB
    have hnone :=
      regRemovePair_empty ig.providers ig.defaultProvider n hB hempty
    refine ⟨hnone, ?_⟩
    simp [get_provider, hnone]
  · intro ig n p h
    simp [add_image_provider, h]
  · intro n1 p1 n2 p2
    rfl
  · intro ig n hB hdef hne
    rw [remove_image_provider_eq_pair] at hne ⊢
    rw [imageRegistryInvB] at hB
    exact regRemovePair_reassign ig.imageProviders ig.defaultImageProvider n hB
      hdef hne
  · intro ig n hB hempty
    rw [remove_image_provider_eq_pair] at hempty ⊢
    rw [imageRegistryInvB] at hB
    have hnone :=
      regRemovePair_empty ig.imageProviders ig.defaultImageProvider n hB hempty
    refine ⟨hnone, ?_⟩
    simp [get_image_provider, hnone]

def c3Ig1 : AIIntegrator := add_provider emptyIntegrator "P1" fixtureTextProvider

def c3Ig2 : AIIntegrator := add_provider c3Ig1 "P2" fixtureTextProvider

def c3ImgIg1 : AIIntegrator :=
  add_image_provider emptyIntegrator "I1" fixtureImageProvider

def c3ImgIg2 : AIIntegrator :=
  add_image_provider c3ImgIg1 "I2" fixtureImageProvider

def c3Ops : List RegOp :=
  [.addText "P1" fixtureTextProvider, .addText "P2" fixtureTextProvider,
   .removeText "P1"]

theorem registry_default_invariant_witness :
    ((runOps c3Ops).defaultProvider = some "P2" ∧
     "P2" ∈ (runOps c3Ops).providers.map Prod.fst) ∧
    (add_provider emptyIntegrator "P1" fixtureTextProvider).defaultProvider =
      some "P1" ∧
    c3Ig2.defaultProvider = some "P1" ∧
    (∃ d, (remove_provider c3Ig2 "P1").defaultProvider = some d ∧
       d ∈ (remove_provider c3Ig2 "P1").providers.map Prod.fst) ∧
    ((remove_provider c3Ig1 "P1").defaultProvider = none ∧
     get_provider (remove_provider c3Ig1 "P1") none =
       .error (.valueError "No providers configured")) ∧
    c3ImgIg2.defaultImageProvider = some "I1" ∧
    (∃ d, (remove_image_provider c3ImgIg2 "I1").defaultImageProvider = some d ∧
       d ∈ (remove_image_provider c3ImgIg2 "I1").imageProviders.map Prod.fst) ∧
    ((remove_image_provider c3ImgIg1 "I1").defaultImageProvider = none ∧
     get_image_provider (remove_image_provider c3ImgIg1 "I1") none =
       .error (.valueError "No image providers configured")) := by
  obtain ⟨hmain, ht1, ht2, ht3, ht4, hi1, hi2, hi3, hi4⟩ :=
    registry_default_invariant
  have hne2 : (remove_provider c3Ig2 "P1").providers ≠ [] := by
    show ([("P2", fixtureTextProvider)] : List (String × BaseProvider)) ≠ []
    exact List.cons_ne_nil _ _
  have hneImg : (remove_image_provider c3ImgIg2 "I1").imageProviders ≠ [] := by
    show ([("I2", fixtureImageProvider)] : List (String × BaseImageProvider)) ≠ []
    exact List.cons_ne_nil _ _
  refine ⟨⟨rfl, (hmain c3Ops).1.1 "P2" rfl⟩,
    ht1 emptyIntegrator "P1" fixtureTextProvider rfl,
    ht2 "P1" fixtureTextProvider "P2" fixtureTextProvider,
    ht3 c3Ig2 "P1" rfl rfl hne2,
    ht4 c3Ig1 "P1" rfl rfl,
    hi2 "I1" fixtureImageProvider "I2" fixtureImageProvider,
    hi3 c3ImgIg2 "I1" rfl rfl hneImg,
    hi4 c3ImgIg1 "I1" rfl rfl⟩

/-! ## Claim theorems: `validate_request` collects every violation

The five checks as Boolean conditions. Note `modelViolated` requires a
*non-empty* specified model: `if request.model and not
self.validate_model(request.model)` skips the check for `""` (Python
truthiness), so a specified-but-empty unknown model yields no violation
— this is what refutes the claim as stated. -/

def sizeViolated (p : BaseImageProvider) (r : ImageRequest) : Bool :=
  !(p.supports_size r.size)

def styleViolated (p : BaseImageProvider) (r : ImageRequest) : Bool :=
  !(p.supports_style r.style)

def formatViolated (p : BaseImageProvider) (r : ImageRequest) : Bool :=
  !(p.supports_format r.format)

def batchViolated (p : BaseImageProvider) (r : ImageRequest) : Bool :=
  if p.maxImagesPerRequest < r.numImages then true else false

def modelViolated (p : BaseImageProvider) (r : ImageRequest) : Bool :=
  match r.model with
  | some m => m != "" && !(p.validate_model m)
  | none => false

/-- The model check's contribution to the violation list. -/
def modelChunk (p : BaseImageProvider) (r : ImageRequest) : List String :=
  match r.model with
  | some m => if m != "" && !(p.validate_model m) then [modelErrMsg p m] else []
  | none => []

lemma if_list_nil {b : Bool} {s : String}
    (h : (if b = true then [s] else []) = []) : b = false := by
  cases b
  · rfl
  · simp at h

lemma validate_request_eq (p : BaseImageProvider) (r : ImageRequest) :
    p.validate_request r =
      (if sizeViolated p r then [sizeErrMsg p r] else []) ++
      (if styleViolated p r then [styleErrMsg p r] else []) ++
      (if formatViolated p r then [formatErrMsg p r] else []) ++
      (if batchViolated p r then [batchErrMsg p r] else []) ++
      modelChunk p r := by
  cases hs : p.supports_size r.size <;>
  cases hst : p.supports_style r.style <;>
  cases hfo : p.supports_format r.format <;>
  by_cases hc : p.maxImagesPerRequest < r.numImages <;>
  simp [BaseImageProvider.validate_request, modelChunk, sizeViolated,
    styleViolated, formatViolated, batchViolated, hs, hst, hfo, hc]

lemma modelChunk_nil_iff (p : BaseImageProvider) (r : ImageRequest) :
    modelChunk p r = [] ↔ modelViolated p r = false := by
  cases hm : r.model with
  | none => simp [modelChunk, modelViolated, hm]
  | some m =>
      cases hc : (m != "" && !(p.validate_model m)) <;>
      simp [modelChunk, modelViolated, hm, hc]

lemma modelChunk_length (p : BaseImageProvider) (r : ImageRequest) :
    (modelChunk p r).length = if modelViolated p r then 1 else 0 := by
  cases hm : r.model with
  | none => simp [modelChunk, modelViolated, hm]
  | some m =>
      cases hc : (m != "" && !(p.validate_model m)) <;>
      simp [modelChunk, modelViolated, hm, hc]

lemma modelChunk_mem (p : BaseImageProvider) (r : ImageRequest)
    (h : modelViolated p r = true) :
    ∃ m, r.model = some m ∧ modelChunk p r = [modelErrMsg p m] := by
  cases hm : r.model with
  | none => simp [modelViolated, hm] at h
  | some m =>
      simp only [modelViolated, hm] at h
      exact ⟨m, rfl, by simp [modelChunk, hm, h]⟩

/-- C6 (amended): for every image request and provider,
`validate_request` reports one violation message for every unmet
constraint among: unsupported size, unsupported style, unsupported
format, batch over `max_images_per_request`, and a specified *non-empty*
model not in the available list — all collected simultaneously, and the
result is empty exactly when none of these is violated.  (A specified
empty-string model is treated as unspecified by the source's truthiness
check.) -/
theorem validate_request_collects_all (p : BaseImageProvider) (r : ImageRequest) :
    (p.validate_request r = [] ↔
      sizeViolated p r = false ∧ styleViolated p r = false ∧
      formatViolated p r = false ∧ batchViolated p r = false ∧
      modelViolated p r = false) ∧
    (p.validate_request r).length =
      ((if sizeViolated p r then 1 else 0) +
       (if styleViolated p r then 1 else 0) +
       (if formatViolated p r then 1 else 0) +
       (if batchViolated p r then 1 else 0) +
       (if modelViolated p r then 1 else 0)) ∧
    (sizeViolated p r = true → sizeErrMsg p r ∈ p.validate_request r) ∧
    (styleViolated p r = true → styleErrMsg p r ∈ p.validate_request r) ∧
    (formatViolated p r = true → formatErrMsg p r ∈ p.validate_request r) ∧
    (batchViolated p r = true → batchErrMsg p r ∈ p.validate_request r) ∧
    (modelViolated p r = true →
      ∃ m, r.model = some m ∧ modelErrMsg p m ∈ p.validate_request r) := by
  rw [validate_request_eq]
  refine ⟨?_, ?_, ?_, ?_, ?_, ?_, ?_⟩
  · constructor
    · intro h
      obtain ⟨h14, h5⟩ := List.append_eq_nil.mp h
      obtain ⟨h13, h4⟩ := List.append_eq_nil.mp h14
      obtain ⟨h12, h3⟩ := List.append_eq_nil.mp h13
      obtain ⟨h1, h2⟩ := List.append_eq_nil.mp h12
      exact ⟨if_list_nil h1, if_list_nil h2, if_list_nil h3, if_list_nil h4,
        (modelChunk_nil_iff p r).mp h5⟩
    · rintro ⟨h1, h2, h3, h4, h5⟩
      rw [h1, h2, h3, h4, (modelChunk_nil_iff p r).mpr h5]
      rfl
  · simp [List.length_append, modelChunk_length]
    cases sizeViolated p r <;> cases styleViolated p r <;>
      cases formatViolated p r <;> cases batchViolated p r <;>
      cases modelViolated p r <;> simp
  · intro h
    rw [h]
    simp
  · intro h
    rw [h]
    simp
  · intro h
    rw [h]
    simp
  · intro h
    rw [h]
    simp
  · intro h
    obtain ⟨m, hm, hchunk⟩ := modelChunk_mem p r h
    refine ⟨m, hm, ?_⟩
    rw [hchunk]
    simp

/-- A provider with restricted capabilities, so that one request can
violate all five constraints at once. -/
def c6WProvider : BaseImageProvider :=
  ⟨"Restricted", ["m1"], [.small], [.photorealistic], [.png], 4,
   fun _ => .error (.providerFailure "GenerationFailed" "unused")⟩

def c6WRequest : ImageRequest :=
  ⟨"x", none, .large, .artistic, .webp, 5, none, some "nope", "standard",
   none, none⟩

theorem validate_request_collects_all_witness :
    (c6WProvider.validate_request c6WRequest).length = 5 ∧
    sizeErrMsg c6WProvider c6WRequest ∈ c6WProvider.validate_request c6WRequest ∧
    styleErrMsg c6WProvider c6WRequest ∈ c6WProvider.validate_request c6WRequest ∧
    formatErrMsg c6WProvider c6WRequest ∈ c6WProvider.validate_request c6WRequest ∧
    batchErrMsg c6WProvider c6WRequest ∈ c6WProvider.validate_request c6WRequest ∧
    (∃ m, c6WRequest.model = some m ∧
      modelErrMsg c6WProvider m ∈ c6WProvider.validate_request c6WRequest) := by
  have hthm := validate_request_collects_all c6WProvider c6WRequest
  refine ⟨?_, hthm.2.2.1 (by rfl), hthm.2.2.2.1 (by rfl),
    hthm.2.2.2.2.1 (by rfl), hthm.2.2.2.2.2.1 (by rfl),
    hthm.2.2.2.2.2.2 (by rfl)⟩
  rw [hthm.2.1]
  rfl

/-- C6 counterexample: a request whose model is specified as the empty
string and is not in the provider's list, yet `validate_request`
reports no violation (the truthiness check skips it). -/
def c6Provider : BaseImageProvider :=
  ⟨"X", ["dall-e-3"], allImageSizes, allImageStyles, allImageFormats, 4,
   fun _ => .error (.providerFailure "GenerationFailed" "unused")⟩

def c6Request : ImageRequest :=
  ⟨"x", none, .large, .photorealistic, .png, 1, none, some "", "standard",
   none, none⟩

theorem validate_request_empty_model_counterexample :
    c6Request.model = some "" ∧
    c6Provider.validate_model "" = false ∧
    c6Provider.validate_request c6Request = [] := by
  exact ⟨rfl, rfl, rfl⟩

/-! ## Claim theorems: prompt / num_images validation at construction -/

/-- C7 counterexample: `AIRequest` is a plain dataclass with no
`__post_init__`; constructing the text variant with an empty prompt
succeeds (no error is raised), refuting "fails immediately at
construction time" for the text variant. -/
theorem mkAIRequest_empty_prompt_counterexample :
    mkAIRequest "" "gpt-4" fixtureOpts =
      .ok ⟨"", "gpt-4", fixtureOpts.temperature, fixtureOpts.maxTokens,
           fixtureOpts.systemPrompt, none, some fixtureOpts.extra⟩ := rfl

/-- C7 (amended): only the image variant validates the prompt — an
`ImageRequest` with an empty or whitespace-only prompt fails at
construction with `"prompt cannot be empty"`, while `AIRequest`
construction performs no validation and always succeeds. -/
theorem prompt_validation_at_construction :
    (∀ (prompt : String) (negativePrompt : Option String) (size : ImageSize)
       (style : ImageStyle) (format : ImageFormat) (numImages : Int)
       (seed : Option Int) (model : Option String) (quality : String)
       (parameters designContext : Option (List (String × Json))),
       pyStrip prompt = "" →
       mkImageRequest prompt negativePrompt size style format numImages seed
         model quality parameters designContext =
         .error (.valueError "prompt cannot be empty")) ∧
    (∀ (prompt model : String) (opts : GenOpts),
       mkAIRequest prompt model opts =
         .ok ⟨prompt, model, opts.temperature, opts.maxTokens,
              opts.systemPrompt, none, some opts.extra⟩) := by
  constructor
  · intro prompt negativePrompt size style format numImages seed model quality
      parameters designContext h
    by_cases hp : prompt = "" <;> simp [mkImageRequest, hp, h]
  · intro prompt model opts
    rfl

theorem prompt_validation_at_construction_witness :
    pyStrip " " = "" ∧
    mkImageRequest " " none .large .photorealistic .png 1 none none
      "standard" none none = .error (.valueError "prompt cannot be empty") ∧
    mkAIRequest "hello" "gpt-4" fixtureOpts =
      .ok ⟨"hello", "gpt-4", fixtureOpts.temperature, fixtureOpts.maxTokens,
           fixtureOpts.systemPrompt, none, some fixtureOpts.extra⟩ := by
  refine ⟨rfl, ?_, ?_⟩
  · exact prompt_validation_at_construction.1 " " none .large .photorealistic
      .png 1 none none "standard" none none rfl
  · exact prompt_validation_at_construction.2 "hello" "gpt-4" fixtureOpts

/-- C8 counterexample: a whitespace-only (hence non-empty) prompt with
`num_images = 1 ∈ [1,10]` still fails construction — the claim's
biconditional "(non-empty prompt) → construction succeeds iff
num_images ∈ [1,10]" is false at this input. -/
theorem imageRequest_whitespace_prompt_counterexample :
    " " ≠ "" ∧ (1 : Int) ≥ 1 ∧ (1 : Int) ≤ 10 ∧
    mkImageRequest " " none .large .photorealistic .png 1 none none
      "standard" none none = .error (.valueError "prompt cannot be empty") := by
  exact ⟨by decide, by decide, by decide, rfl⟩

/-- C8 (amended): for prompts that are non-empty *after stripping
whitespace*, `ImageRequest` construction succeeds iff
`num_images ∈ [1,10]`, failing fast with the specific message otherwise;
and every successfully constructed `ImageRequest` — whatever the
arguments — satisfies `1 ≤ num_images ≤ 10`. -/
theorem imageRequest_num_images_invariant :
    (∀ (prompt : String) (negativePrompt : Option String) (size : ImageSize)
       (style : ImageStyle) (format : ImageFormat) (numImages : Int)
       (seed : Option Int) (model : Option String) (quality : String)
       (parameters designContext : Option (List (String × Json))),
       pyStrip prompt ≠ "" →
       ((∃ r, mkImageRequest prompt negativePrompt size style format numImages
           seed model quality parameters designContext = .ok r) ↔
         1 ≤ numImages ∧ numImages ≤ 10) ∧
       (numImages < 1 →
         mkImageRequest prompt negativePrompt size style format numImages seed
           model quality parameters designContext =
           .error (.valueError "num_images must be at least 1")) ∧
       (numImages > 10 →
         mkImageRequest prompt negativePrompt size style format numImages seed
           model quality parameters designContext =
           .error (.valueError "num_images cannot exceed 10"))) ∧
    (∀ (prompt : String) (negativePrompt : Option String) (size : ImageSize)
       (style : ImageStyle) (format : ImageFormat) (numImages : Int)
       (seed : Option Int) (model : Option String) (quality : String)
       (parameters designContext : Option (List (String × Json)))
       (r : ImageRequest),
       mkImageRequest prompt negativePrompt size style format numImages seed
         model quality parameters designContext = .ok r →
       1 ≤ r.numImages ∧ r.numImages ≤ 10) := by
  constructor
  · intro prompt negativePrompt size style format numImages seed model quality
      parameters designContext h
    have hp : ¬ prompt = "" := by
      intro he
      rw [he] at h
      exact h rfl
    refine ⟨?_, ?_, ?_⟩
    · constructor
      · rintro ⟨r, hr⟩
        by_cases h1 : numImages < 1
        · simp [mkImageRequest, hp, h, h1] at hr
        · by_cases h2 : numImages > 10
          · simp [mkImageRequest, hp, h, h1, h2] at hr
          · omega
      · rintro ⟨h1, h2⟩
        have h1' : ¬ numImages < 1 := by omega
        have h2' : ¬ numImages > 10 := by omega
        exact ⟨⟨prompt, negativePrompt, size, style, format, numImages, seed,
          model, quality, parameters, designContext⟩,
          by simp [mkImageRequest, hp, h, h1', h2']⟩
    · intro h1
      simp [mkImageRequest, hp, h, h1]
    · intro h2
      have h1' : ¬ numImages < 1 := by omega
      simp [mkImageRequest, hp, h, h1', h2]
  · intro prompt negativePrompt size style format numImages seed model quality
      parameters designContext r hr
    by_cases hp : prompt = "" || pyStrip prompt = ""
    · simp [mkImageRequest, hp] at hr
    · by_cases h1 : numImages < 1
      · simp [mkImageRequest, hp, h1] at hr
      · by_cases h2 : numImages > 10
        · simp [mkImageRequest, hp, h1, h2] at hr
        · have : r.numImages = numImages := by
            simp [mkImageRequest, hp, h1, h2] at hr
            rw [← hr]
          omega

def c8Req : ImageRequest :=
  ⟨"ok", none, .large, .photorealistic, .png, 3, none, none, "standard",
   none, none⟩

theorem imageRequest_num_images_invariant_witness :
    pyStrip "ok" ≠ "" ∧
    (∃ r, mkImageRequest "ok" none .large .photorealistic .png 3 none none
       "standard" none none = .ok r) ∧
    mkImageRequest "ok" none .large .photorealistic .png 0 none none
      "standard" none none = .error (.valueError "num_images must be at least 1") ∧
    mkImageRequest "ok" none .large .photorealistic .png 11 none none
      "standard" none none = .error (.valueError "num_images cannot exceed 10") ∧
    (1 ≤ c8Req.numImages ∧ c8Req.numImages ≤ 10) := by
  have hne : pyStrip "ok" ≠ "" := by decide
  have hr : mkImageRequest "ok" none .large .photorealistic .png 3 none none
      "standard" none none = .ok c8Req := by rfl
  refine ⟨hne, ⟨c8Req, hr⟩, ?_, ?_,
    imageRequest_num_images_invariant.2 "ok" none .large .photorealistic .png
      3 none none "standard" none none c8Req hr⟩
  · exact (imageRequest_num_images_invariant.1 "ok" none .large .photorealistic
      .png 0 none none "standard" none none hne).2.1 (by decide)
  · exact (imageRequest_num_images_invariant.1 "ok" none .large .photorealistic
      .png 11 none none "standard" none none hne).2.2 (by decide)

/-! ## `core/validation.py` and `config/settings.py`

Configuration values are JSON-like (`Json`); a whole configuration is a
top-level dict.  Python truthiness (`not config[field]`) and
`type(x).__name__` are modelled on that universe. -/

def jsonTruthy : Json → Bool
  | .null => false
  | .bool b => b
  | .num n => n != 0
  | .str s => s != ""
  | .arr items => !items.isEmpty
  | .obj entries => !entries.isEmpty

def jsonTypeName : Json → String
  | .null => "NoneType"
  | .bool _ => "bool"
  | .num _ => "int"
  | .str _ => "str"
  | .arr _ => "list"
  | .obj _ => "dict"

/-- `str()` of a JSON-like value, as an f-string shows it (containers
approximated by their canonical serialization). -/
def pyStr : Json → String
  | .str s => s
  | .bool true => "True"
  | .bool false => "False"
  | .null => "None"
  | .num n => toString n
  | .arr items => jsonDumpsCanonical (.arr items)
  | .obj entries => jsonDumpsCanonical (.obj entries)

def charLower (c : Char) : Char :=
  if 'A' ≤ c ∧ c ≤ 'Z' then Char.ofNat (c.toNat + 32) else c

/-- `str.lower()` (ASCII fragment). -/
def pyLower (s : String) : String := String.mk (s.data.map charLower)

/-- `PROVIDER_REQUIREMENTS.get(ptype, set())` — every entry of the table
is a one-element set. -/
def providerRequirements (ptype : String) : List String :=
  if ptype = "openai" ∨ ptype = "anthropic" ∨ ptype = "google" then ["api_key"]
  else if ptype = "local" ∨ ptype = "ollama" ∨ ptype = "llama_cpp" then
    ["model_path"]
  else []

/-- The required-field set actually enforced for one provider entry:
the known-provider table, else the network/local heuristic
(`model_path`/`weights_path` presence signals a local provider). -/
def effectiveRequired (ptype : String) (entries : List (String × Json)) :
    List String :=
  let required := providerRequirements ptype
  if required.isEmpty then
    if dictHas entries "model_path" || dictHas entries "weights_path" then
      if !(dictHas entries "model_path") then ["model_path"] else []
    else ["api_key"]
  else required

/-- The error messages for one required field. -/
def requiredFieldErrors (name : String) (entries : List (String × Json))
    (field : String) : List String :=
  match dictGet entries field with
  | none =>
      ["provider \x27" ++ name ++ "\x27 missing required field: \x27" ++
        field ++ "\x27"]
  | some v =>
      if !(jsonTruthy v) then
        ["provider \x27" ++ name ++ "\x27 has empty value for required field: \x27" ++
          field ++ "\x27"]
      else []

/-- `validate_provider_config` (the `provider_type or name.lower()`
default mirrors Python's falsy `or`). -/
def validate_provider_config (name : String) (config : Json)
    (providerType : Option String) : List String :=
  let ptype :=
    match providerType with
    | some t => if t = "" then pyLower name else t
    | none => pyLower name
  match config with
  | .obj entries =>
      (effectiveRequired ptype entries).flatMap (requiredFieldErrors name entries)
  | other =>
      ["provider \x27" ++ name ++ "\x27: expected dict, got " ++ jsonTypeName other]

/-- `ProviderConfig` (fields hold raw configured values). -/
structure ProviderConfig where
  api_key : Json
  default_model : Json
  base_url : Json
  model_path : Json
  device : Json
  parameters : Json

def providerConfigFieldNames : List String :=
  ["api_key", "default_model", "base_url", "model_path", "device", "parameters"]

/-- `ProviderConfig(**provider_data)`: raises `TypeError` on any keyword
that is not a declared dataclass field. -/
def mkProviderConfig (data : List (String × Json)) : Except String ProviderConfig :=
  match data.find? (fun kv => !(providerConfigFieldNames.contains kv.1)) with
  | some kv =>
      .error ("got an unexpected keyword argument \x27" ++ kv.1 ++ "\x27")
  | none =>
      .ok ⟨dictGetD data "api_key" (.str ""),
           dictGetD data "default_model" .null,
           dictGetD data "base_url" .null,
           dictGetD data "model_path" .null,
           dictGetD data "device" .null,
           dictGetD data "parameters" (.obj [])⟩

structure Settings where
  providers : List (String × ProviderConfig)
  default_provider : Option Json
  cache_enabled : Json
  cache_ttl : Json
  timeout : Json
  max_retries : Json

/-- `Settings.from_dict`. -/
def settingsFromDict (config : List (String × Json)) : Except String Settings :=
  match dictGetD config "providers" (.obj []) with
  | .obj entries => do
      let provs ← exMapM (fun kv =>
          match kv.2 with
          | .obj pdata =>
              match mkProviderConfig pdata with
              | .ok pc => .ok (kv.1, pc)
              | .error e => .error e
          | other =>
              .error ("argument after ** must be a mapping, not " ++
                jsonTypeName other))
        entries
      .ok ⟨provs, dictGet config "default_provider",
           dictGetD config "cache_enabled" (.bool false),
           dictGetD config "cache_ttl" (.num 3600),
           dictGetD config "timeout" (.num 30),
           dictGetD config "max_retries" (.num 3)⟩
  | other => .error ("\x27" ++ jsonTypeName other ++ "\x27 object has no attribute \x27items\x27")

/-- The `default_provider` reference check of `validate_config`. -/
def dpErrors (config : List (String × Json)) (provs : List (String × Json)) :
    List String :=
  match dictGet config "default_provider" with
  | none => []
  | some dp =>
      if jsonTruthy dp then
        let isMember :=
          match dp with
          | .str s => dictHas provs s
          | _ => false
        if !isMember then
          ["default_provider \x27" ++ pyStr dp ++ "\x27 not found in providers. Available: " ++
            pyStrListRepr (provs.map Prod.fst)]
        else []
      else []

/-- Fragment of Python `==` sufficient for comparing a configured value
with the dead-field defaults (`False`, `3600`, `30`, `3`), including the
bool-is-int quirk (`0 == False`). -/
def pyEq (v d : Json) : Bool :=
  match v, d with
  | .bool a, .bool b => a == b
  | .num a, .num b => a == b
  | .num a, .bool b => a == (if b then 1 else 0)
  | .bool a, .num b => (if a then 1 else 0) == b
  | _, _ => false

def deadFieldDefaults : List (String × Json) :=
  [("cache_enabled", .bool false), ("cache_ttl", .num 3600),
   ("timeout", .num 30), ("max_retries", .num 3)]

def deadFieldMsg (f : String) : String :=
  "\x27" ++ f ++ "\x27 is configured but not yet enforced by providers. Value will be ignored."

/-- The dead-field warning loop of `validate_config`. -/
def deadFieldWarnings (config : List (String × Json)) : List String :=
  deadFieldDefaults.flatMap (fun fd =>
    match dictGet config fd.1 with
    | some v => if !(pyEq v fd.2) then [deadFieldMsg fd.1] else []
    | none => [])

structure ValidationResult where
  valid : Bool
  errors : List String
  warnings : List String
  settings : Option Settings

/-- `validate_config`. -/
def validate_config (config : List (String × Json)) : ValidationResult :=
  match dictGetD config "providers" (.obj []) with
  | .obj provs =>
      let providerErrors :=
        provs.flatMap (fun np => validate_provider_config np.1 np.2 none)
      let errors := providerErrors ++ dpErrors config provs
      let warnings := deadFieldWarnings config
      if !errors.isEmpty then ⟨false, errors, warnings, none⟩
      else
        match settingsFromDict config with
        | .ok s => ⟨true, [], warnings, some s⟩
        | .error e => ⟨false, ["Failed to build Settings: " ++ e], warnings, none⟩
  | other =>
      ⟨false, ["\x27providers\x27 must be a dict, got " ++ jsonTypeName other],
       [], none⟩

/-! ## Claim theorems: `validate_config` validity -/

/-- Spec-side reading of "the provider's required-field set is satisfied
with non-empty values" (known-provider table or network/local
heuristic; a non-dict entry satisfies nothing). -/
def requiredSatisfiedB (name : String) (config : Json) : Bool :=
  match config with
  | .obj entries =>
      (effectiveRequired (pyLower name) entries).all (fun f =>
        match dictGet entries f with
        | some v => jsonTruthy v
        | none => false)
  | _ => false

/-- Spec-side reading of "any declared default_provider name is present
among the providers" (a falsy `default_provider` is not declared). -/
def defaultDeclaredOkB (config : List (String × Json))
    (provs : List (String × Json)) : Bool :=
  match dictGet config "default_provider" with
  | none => true
  | some dp =>
      if jsonTruthy dp then
        match dp with
        | .str s => dictHas provs s
        | _ => false
      else true

lemma requiredFieldErrors_nil_iff (name : String)
    (entries : List (String × Json)) (f : String) :
    requiredFieldErrors name entries f = [] ↔
      (match dictGet entries f with
       | some v => jsonTruthy v
       | none => false) = true := by
  cases hg : dictGet entries f with
  | none => simp [requiredFieldErrors, hg]
  | some v => cases ht : jsonTruthy v <;> simp [requiredFieldErrors, hg, ht]

lemma validate_provider_config_nil_iff (name : String) (config : Json) :
    validate_provider_config name config none = [] ↔
      requiredSatisfiedB name config = true := by
  cases config with
  | obj entries =>
      simp only [validate_provider_config, requiredSatisfiedB]
      rw [List.flatMap_eq_nil_iff, List.all_eq_true]
      constructor
      · intro h f hf
        exact (requiredFieldErrors_nil_iff name entries f).mp (h f hf)
      · intro h f hf
        exact (requiredFieldErrors_nil_iff name entries f).mpr (h f hf)
  | null => simp [validate_provider_config, requiredSatisfiedB]
  | bool b => simp [validate_provider_config, requiredSatisfiedB]
  | num n => simp [validate_provider_config, requiredSatisfiedB]
  | str s => simp [validate_provider_config, requiredSatisfiedB]
  | arr items => simp [validate_provider_config, requiredSatisfiedB]

lemma dpErrors_nil_iff (config : List (String × Json))
    (provs : List (String × Json)) :
    dpErrors config provs = [] ↔ defaultDeclaredOkB config provs = true := by
  cases hg : dictGet config "default_provider" with
  | none => simp [dpErrors, defaultDeclaredOkB, hg]
  | some dp =>
      cases ht : jsonTruthy dp
      · simp [dpErrors, defaultDeclaredOkB, hg, ht]
      · cases dp with
        | str s =>
            cases hm : dictHas provs s <;>
              simp [dpErrors, defaultDeclaredOkB, hg, ht, hm]
        | null => simp [dpErrors, defaultDeclaredOkB, hg, ht]
        | bool b => simp [dpErrors, defaultDeclaredOkB, hg, ht]
        | num n => simp [dpErrors, defaultDeclaredOkB, hg, ht]
        | arr items => simp [dpErrors, defaultDeclaredOkB, hg, ht]
        | obj entries => simp [dpErrors, defaultDeclaredOkB, hg, ht]

/-- C9 (amended): when the providers section is a dict,
`validate_config(C).valid` is true iff every named provider's
required-field set is satisfied with non-empty values, any declared
`default_provider` is present among the providers, **and** the config
parses into `Settings` (in particular, every provider entry holds only
recognized `ProviderConfig` fields).  Validity coincides with having no
errors — warnings never make the result invalid. -/
theorem validate_config_valid_iff (config : List (String × Json))
    (provs : List (String × Json))
    (hprovs : dictGetD config "providers" (Json.obj []) = Json.obj provs) :
    ((validate_config config).valid = true ↔
      (∀ np ∈ provs, requiredSatisfiedB np.1 np.2 = true) ∧
      defaultDeclaredOkB config provs = true ∧
      ∃ s, settingsFromDict config = .ok s) ∧
    (validate_config config).valid = (validate_config config).errors.isEmpty := by
  have herr :
      (provs.flatMap (fun np => validate_provider_config np.1 np.2 none) ++
        dpErrors config provs) = [] ↔
      ((∀ np ∈ provs, requiredSatisfiedB np.1 np.2 = true) ∧
        defaultDeclaredOkB config provs = true) := by
    rw [List.append_eq_nil, List.flatMap_eq_nil_iff]
    constructor
    · rintro ⟨h1, h2⟩
      exact ⟨fun np hnp => (validate_provider_config_nil_iff np.1 np.2).mp
        (h1 np hnp), (dpErrors_nil_iff config provs).mp h2⟩
    · rintro ⟨h1, h2⟩
      exact ⟨fun np hnp => (validate_provider_config_nil_iff np.1 np.2).mpr
        (h1 np hnp), (dpErrors_nil_iff config provs).mpr h2⟩
  simp only [validate_config, hprovs]
  cases he :
      (provs.flatMap (fun np => validate_provider_config np.1 np.2 none) ++
        dpErrors config provs).isEmpty with
  | false =>
      have hne :
          ¬ ((provs.flatMap (fun np => validate_provider_config np.1 np.2 none) ++
            dpErrors config provs) = []) := by
        intro hc
        rw [hc] at he
        simp at he
      simp only [he, Bool.not_false, if_true]
      constructor
      · constructor
        · intro hfalse
          exact absurd hfalse (by simp)
        · rintro ⟨h1, h2, _⟩
          exact absurd (herr.mpr ⟨h1, h2⟩) hne
      · have : (provs.flatMap (fun np => validate_provider_config np.1 np.2 none) ++
            dpErrors config provs).isEmpty = false := he
        simp [this]
  | true =>
      have hnil := List.isEmpty_iff.mp he
      simp only [he, Bool.not_true, if_false]
      cases hs : settingsFromDict config with
      | ok s =>
          constructor
          · constructor
            · intro _
              exact ⟨(herr.mp hnil).1, (herr.mp hnil).2, s, rfl⟩
            · intro _
              rfl
          · rfl
      | error e =>
          constructor
          · constructor
            · intro hfalse
              exact absurd hfalse (by simp)
            · rintro ⟨_, _, s, hcontra⟩
              exact absurd hcontra (by simp)
          · simp

/-- C9 counterexample configuration: `openai` satisfies its required
field (`api_key`, non-empty) and no `default_provider` is declared, yet
the extra `organization` key makes `ProviderConfig(**data)` raise
`TypeError`, so the result is invalid. -/
def c9BadConfig : List (String × Json) :=
  [("providers",
    .obj [("openai",
           .obj [("api_key", .str "sk-test"), ("organization", .str "acme")])])]

theorem validate_config_extra_field_counterexample :
    validate_provider_config "openai"
      (Json.obj [("api_key", .str "sk-test"), ("organization", .str "acme")])
      none = [] ∧
    dictGet c9BadConfig "default_provider" = none ∧
    (validate_config c9BadConfig).valid = false ∧
    (validate_config c9BadConfig).errors =
      ["Failed to build Settings: got an unexpected keyword argument \x27organization\x27"] := by
  exact ⟨rfl, rfl, rfl, rfl⟩

def c9GoodProvs : List (String × Json) :=
  [("openai", .obj [("api_key", .str "sk-test")]),
   ("custom", .obj [("model_path", .str "/models/x.bin")])]

def c9GoodConfig : List (String × Json) :=
  [("providers", .obj c9GoodProvs), ("default_provider", .str "openai")]

theorem validate_config_valid_iff_witness :
    dictGetD c9GoodConfig "providers" (Json.obj []) = Json.obj c9GoodProvs ∧
    (validate_config c9GoodConfig).valid = true := by
  have hprovs : dictGetD c9GoodConfig "providers" (Json.obj []) =
      Json.obj c9GoodProvs := rfl
  refine ⟨hprovs, ?_⟩
  exact (validate_config_valid_iff c9GoodConfig c9GoodProvs hprovs).1.mpr
    ⟨by decide, by decide, ⟨_, rfl⟩⟩

end AIIntegratorModel
